import Mathlib

/-!
# Dishwasher controller (Actuators.cpp / Actuators.h, Sensors.cpp / Sensors.h)

A shallow embedding of the `Actuators` class (the `Sensors` class follows it,
with its own conventions): the state cache, the digital
output pins, the timer-3 interrupt mask register, the nineteen commands and the
`longjmp` escape of `error_management`.

* A C++ `bool` is a Lean `Bool`; Arduino's `HIGH`/`LOW` are `true`/`false`.
* `digitalWrite(pin, v)` records `v` as the level last written to `pin`.
* `TIMSK3` is an 8-bit register, kept as a `Nat` reduced modulo 256 on write.
* `longjmp(_env, code)` ends the call: the outcome is `escaped code s`, where
  `s` is the state at the jump. A call that reaches its end is `returned s`.
* `TOIE3` (a bit position defined by the AVR headers, not by this repository)
  is a parameter of the two diverter routines.
-/

namespace Dishwasher

/-! ## Data model -/

/-- Arduino logic level `HIGH`. -/
abbrev HIGH : Bool := true

/-- Arduino logic level `LOW`. -/
abbrev LOW : Bool := false

/-- Members of `class Actuators` that the commands read or write, together with
the hardware they drive: the level last written to each digital pin and the
timer-3 interrupt mask register. -/
structure State where
  stateRelayOn : Bool
  stateCyclage : Bool
  cntrlCyclage1 : Bool
  cntrlCyclage2 : Bool
  stateChauffage : Bool
  stateRemplissage : Bool
  stateRegeneration : Bool
  stateDiverter : Bool
  stateVidange : Bool
  stateSechage : Bool
  stateDoseur : Bool
  flagTimer3 : Bool
  pins : Nat → Bool
  TIMSK3 : Nat

/-- Result of a call: it either reaches its end, or `longjmp` leaves it with a
reason code. Both carry the state at that moment. -/
inductive Outcome where
  | returned (s : State)
  | escaped (code : Int) (s : State)

/-- State in which a call left the controller, however it ended. -/
def Outcome.state : Outcome → State
  | .returned s => s
  | .escaped _ s => s

/-- Reason code delivered to the recovery point, `none` for a normal return. -/
def Outcome.code : Outcome → Option Int
  | .returned _ => none
  | .escaped c _ => some c

/-! ## Pin map (Actuators.h) -/

def relayOnPin : Nat := 8
def comCyclagePin : Nat := 14
def comChauffagePin : Nat := 15
def comRemplissagePin : Nat := 22
def comRegenerationPin : Nat := 24
def comDiverterPin : Nat := 4
def comVidangePin : Nat := 5
def comSechagePin : Nat := 6
def comDoseurPin : Nat := 7

/-- Arduino `digitalWrite`: the level of `pin` becomes `val`, other pins keep
their level. -/
def digitalWrite (pin : Nat) (val : Bool) (s : State) : State :=
  { s with pins := fun p => if p = pin then val else s.pins p }

/-! ## Error management -/

/-- Routine `Actuators::error_management`: the `switch` jumps for the codes 1 to 5 and
falls out of the statement for any other code. -/
def error_management (code : Int) (s : State) : Outcome :=
  if code = 1 then .escaped code s
  else if code = 2 then .escaped code s
  else if code = 3 then .escaped code s
  else if code = 4 then .escaped code s
  else if code = 5 then .escaped code s
  else .returned s

/-! ## Commands -/

/-- Routine `Actuators::init_variables`. -/
def init_variables (s : State) : State :=
  { s with
    stateRelayOn := LOW
    stateCyclage := LOW
    stateChauffage := LOW
    stateRemplissage := LOW
    stateRegeneration := LOW
    stateDiverter := LOW
    stateVidange := LOW
    stateSechage := LOW
    stateDoseur := LOW
    flagTimer3 := LOW }

/-- Routine `Actuators::relayOn_off`. -/
def relayOn_off (s : State) : State :=
  let s := { s with stateRelayOn := LOW }
  digitalWrite relayOnPin s.stateRelayOn s

/-- Routine `Actuators::relayOn_on`. -/
def relayOn_on (s : State) : State :=
  let s := { s with stateRelayOn := HIGH }
  digitalWrite relayOnPin s.stateRelayOn s

/-- Routine `Actuators::cyclage_off`. -/
def cyclage_off (s : State) : State :=
  let s := { s with stateCyclage := LOW }
  digitalWrite comCyclagePin s.stateCyclage s

/-- Routine `Actuators::cyclage_on`. -/
def cyclage_on (s : State) : Outcome :=
  let errorCode : Int := -1
  if s.stateRelayOn == LOW then
    let errorCode : Int := 1
    error_management errorCode s
  else
    let s := { s with stateCyclage := HIGH }
    let s := digitalWrite comCyclagePin s.stateCyclage s
    error_management errorCode s

/-- Routine `Actuators::chauffage_off`. -/
def chauffage_off (s : State) : State :=
  let s := { s with stateChauffage := LOW }
  digitalWrite comChauffagePin s.stateChauffage s

/-- Routine `Actuators::chauffage_on`. -/
def chauffage_on (s : State) : Outcome :=
  let errorCode : Int := -1
  if s.stateCyclage == LOW then
    let errorCode : Int := 3
    error_management errorCode s
  else
    let s := { s with stateChauffage := HIGH }
    let s := digitalWrite comChauffagePin s.stateChauffage s
    error_management errorCode s

/-- Routine `Actuators::remplissage_off`. -/
def remplissage_off (s : State) : State :=
  let s := { s with stateRemplissage := LOW }
  digitalWrite comRemplissagePin s.stateRemplissage s

/-- Routine `Actuators::remplissage_on`. -/
def remplissage_on (s : State) : Outcome :=
  let errorCode : Int := -1
  if s.stateRelayOn == LOW then
    let errorCode : Int := 1
    error_management errorCode s
  else
    let s := { s with stateRemplissage := HIGH }
    let s := digitalWrite comRemplissagePin s.stateRemplissage s
    error_management errorCode s

/-- Routine `Actuators::regeneration_off`. -/
def regeneration_off (s : State) : State :=
  let s := { s with stateRegeneration := LOW }
  digitalWrite comRegenerationPin s.stateRegeneration s

/-- Routine `Actuators::regeneration_on`. -/
def regeneration_on (s : State) : Outcome :=
  let errorCode : Int := -1
  if s.stateRelayOn == LOW then
    let errorCode : Int := 1
    error_management errorCode s
  else
    let s := { s with stateRegeneration := HIGH }
    let s := digitalWrite comRegenerationPin s.stateRegeneration s
    error_management errorCode s

/-- Routine `Actuators::diverter_off`; `TIMSK3 &= (0 << TOIE3)` on the 8-bit register. -/
def diverter_off (TOIE3 : Nat) (s : State) : State :=
  let s := { s with stateDiverter := LOW }
  let s := digitalWrite comDiverterPin s.stateDiverter s
  let s := { s with TIMSK3 := (s.TIMSK3 &&& (0 <<< TOIE3)) % 256 }
  { s with flagTimer3 := LOW }

/-- Routine `Actuators::diverter_on`; `TIMSK3 |= (1 << TOIE3)` on the 8-bit register. -/
def diverter_on (TOIE3 : Nat) (s : State) : Outcome :=
  let errorCode : Int := -1
  if s.stateRelayOn == LOW then
    let errorCode : Int := 1
    error_management errorCode s
  else if s.stateCyclage == LOW then
    let errorCode : Int := 3
    error_management errorCode s
  else
    let s := { s with stateDiverter := HIGH }
    let s := digitalWrite comDiverterPin s.stateDiverter s
    let s := { s with TIMSK3 := (s.TIMSK3 ||| (1 <<< TOIE3)) % 256 }
    let s := { s with flagTimer3 := HIGH }
    error_management errorCode s

/-- Routine `Actuators::vidange_off`. -/
def vidange_off (s : State) : State :=
  let s := { s with stateVidange := LOW }
  digitalWrite comVidangePin s.stateVidange s

/-- Routine `Actuators::vidange_on`. -/
def vidange_on (s : State) : Outcome :=
  let errorCode : Int := -1
  if s.stateRelayOn == LOW then
    let errorCode : Int := 1
    error_management errorCode s
  else
    let s := { s with stateVidange := HIGH }
    let s := digitalWrite comVidangePin s.stateVidange s
    error_management errorCode s

/-- Routine `Actuators::sechage_off`. -/
def sechage_off (s : State) : State :=
  let s := { s with stateSechage := LOW }
  digitalWrite comSechagePin s.stateSechage s

/-- Routine `Actuators::sechage_on`. -/
def sechage_on (s : State) : Outcome :=
  let errorCode : Int := -1
  if s.stateRelayOn == LOW then
    let errorCode : Int := 1
    error_management errorCode s
  else if s.stateCyclage == HIGH then
    let errorCode : Int := 4
    error_management errorCode s
  else
    let s := { s with stateSechage := HIGH }
    let s := digitalWrite comSechagePin s.stateSechage s
    error_management errorCode s

/-- Routine `Actuators::doseur_off`. -/
def doseur_off (s : State) : State :=
  let s := { s with stateDoseur := LOW }
  digitalWrite comDoseurPin s.stateDoseur s

/-- Routine `Actuators::doseur_on`: the pin is written first, then the cache field. -/
def doseur_on (s : State) : Outcome :=
  let errorCode : Int := -1
  if s.stateRelayOn == LOW then
    let errorCode : Int := 1
    error_management errorCode s
  else if s.stateCyclage == LOW then
    let errorCode : Int := 3
    error_management errorCode s
  else
    let s := digitalWrite comDoseurPin HIGH s
    let s := { s with stateDoseur := HIGH }
    error_management errorCode s

/-! ## The command surface as data -/

/-- The nine controlled outputs, named as in the source. -/
inductive Actuator where
  | relayOn
  | cyclage
  | chauffage
  | remplissage
  | regeneration
  | diverter
  | vidange
  | sechage
  | doseur
  deriving DecidableEq, Fintype

/-- Command pin of an actuator. -/
def Actuator.pin : Actuator → Nat
  | .relayOn => relayOnPin
  | .cyclage => comCyclagePin
  | .chauffage => comChauffagePin
  | .remplissage => comRemplissagePin
  | .regeneration => comRegenerationPin
  | .diverter => comDiverterPin
  | .vidange => comVidangePin
  | .sechage => comSechagePin
  | .doseur => comDoseurPin

/-- Cache field of an actuator. -/
def State.cache (s : State) : Actuator → Bool
  | .relayOn => s.stateRelayOn
  | .cyclage => s.stateCyclage
  | .chauffage => s.stateChauffage
  | .remplissage => s.stateRemplissage
  | .regeneration => s.stateRegeneration
  | .diverter => s.stateDiverter
  | .vidange => s.stateVidange
  | .sechage => s.stateSechage
  | .doseur => s.stateDoseur

/-- Bit `TOIE3` of `TIMSK3`: the timer-3 overflow interrupt is enabled. -/
def State.timer3OverflowEnabled (TOIE3 : Nat) (s : State) : Bool :=
  s.TIMSK3.testBit TOIE3

/-- The `on` routine of an actuator. `relayOn_on` has no guard and no call to
`error_management`: it always returns. -/
def Actuator.on (TOIE3 : Nat) : Actuator → State → Outcome
  | .relayOn => fun s => .returned (relayOn_on s)
  | .cyclage => cyclage_on
  | .chauffage => chauffage_on
  | .remplissage => remplissage_on
  | .regeneration => regeneration_on
  | .diverter => diverter_on TOIE3
  | .vidange => vidange_on
  | .sechage => sechage_on
  | .doseur => doseur_on

/-- The `off` routine of an actuator. -/
def Actuator.off (TOIE3 : Nat) : Actuator → State → State
  | .relayOn => relayOn_off
  | .cyclage => cyclage_off
  | .chauffage => chauffage_off
  | .remplissage => remplissage_off
  | .regeneration => regeneration_off
  | .diverter => diverter_off TOIE3
  | .vidange => vidange_off
  | .sechage => sechage_off
  | .doseur => doseur_off

/-- The eight actuators whose `on` routine checks the cache first. -/
def Actuator.guarded : Actuator → Bool
  | .relayOn => false
  | _ => true

/-- A command of the cycle program. -/
inductive Command where
  | init_variables
  | on (a : Actuator)
  | off (a : Actuator)
  deriving DecidableEq

/-- Execute one command. The `off` routines and `init_variables` contain no
jump, so they always return. -/
def Command.exec (TOIE3 : Nat) : Command → State → Outcome
  | .init_variables => fun s => .returned (Dishwasher.init_variables s)
  | .on a => a.on TOIE3
  | .off a => fun s => .returned (a.off TOIE3 s)

/-- Execute a sequence of commands in program order. After an escape the cycle
program resumes at its recovery point and goes on issuing commands, so the next
command starts from the state the escape left. -/
def run (TOIE3 : Nat) : List Command → State → State
  | [], s => s
  | c :: cs, s => run TOIE3 cs (c.exec TOIE3 s).state

/-- Every pin and cache field at `LOW`, mask register cleared. -/
def allLow : State :=
  { stateRelayOn := LOW
    stateCyclage := LOW
    cntrlCyclage1 := LOW
    cntrlCyclage2 := LOW
    stateChauffage := LOW
    stateRemplissage := LOW
    stateRegeneration := LOW
    stateDiverter := LOW
    stateVidange := LOW
    stateSechage := LOW
    stateDoseur := LOW
    flagTimer3 := LOW
    pins := fun _ => LOW
    TIMSK3 := 0 }

/-! ## Invariants of the data model and caller discipline -/

/-- Cache/pin agreement: each of the nine cache fields equals the level last
written to its command pin. -/
def CacheMirrorsPins (s : State) : Prop :=
  ∀ a : Actuator, s.cache a = s.pins a.pin

instance (s : State) : Decidable (CacheMirrorsPins s) := by
  unfold CacheMirrorsPins; infer_instance

/-- Wash pump, fill valve, regeneration valve, drain pump, diverter, dispenser
and dryer fan each require the main relay. -/
def MainRelayInvariant (s : State) : Prop :=
  (s.stateCyclage = HIGH → s.stateRelayOn = HIGH) ∧
  (s.stateRemplissage = HIGH → s.stateRelayOn = HIGH) ∧
  (s.stateRegeneration = HIGH → s.stateRelayOn = HIGH) ∧
  (s.stateVidange = HIGH → s.stateRelayOn = HIGH) ∧
  (s.stateDiverter = HIGH → s.stateRelayOn = HIGH) ∧
  (s.stateDoseur = HIGH → s.stateRelayOn = HIGH) ∧
  (s.stateSechage = HIGH → s.stateRelayOn = HIGH)

instance (s : State) : Decidable (MainRelayInvariant s) := by
  unfold MainRelayInvariant; infer_instance

/-- Heater, diverter and dispenser each require the wash pump. -/
def WashPumpInvariant (s : State) : Prop :=
  (s.stateChauffage = HIGH → s.stateCyclage = HIGH) ∧
  (s.stateDiverter = HIGH → s.stateCyclage = HIGH) ∧
  (s.stateDoseur = HIGH → s.stateCyclage = HIGH)

instance (s : State) : Decidable (WashPumpInvariant s) := by
  unfold WashPumpInvariant; infer_instance

/-- The dryer fan excludes the wash pump. -/
def DryerFanInvariant (s : State) : Prop :=
  s.stateSechage = HIGH → s.stateCyclage = LOW

instance (s : State) : Decidable (DryerFanInvariant s) := by
  unfold DryerFanInvariant; infer_instance

/-- Caller discipline: `relayOn_off` is issued only while every actuator that
requires the main relay is LOW in the cache. Other commands are free. -/
def relayOffOnlyWhenIdle : Command → State → Bool
  | .off .relayOn, s =>
      !(s.stateCyclage || s.stateRemplissage || s.stateRegeneration || s.stateVidange ||
        s.stateDiverter || s.stateDoseur || s.stateSechage)
  | _, _ => true

/-- Caller discipline: `cyclage_off` is issued only while heater, diverter and
dispenser are LOW in the cache. Other commands are free. -/
def cyclageOffOnlyWhenIdle : Command → State → Bool
  | .off .cyclage, s => !(s.stateChauffage || s.stateDiverter || s.stateDoseur)
  | _, _ => true

/-- Caller discipline: `cyclage_on` is issued only while the dryer fan is LOW
in the cache. Other commands are free. -/
def cyclageOnOnlyWhenFanOff : Command → State → Bool
  | .on .cyclage, s => !s.stateSechage
  | _, _ => true

/-- Check that every command of a sequence is allowed by `ok` in the state in
which it is issued, the sequence being executed as by `run`. -/
def runsUnder (ok : Command → State → Bool) (TOIE3 : Nat) : List Command → State → Bool
  | [], _ => true
  | c :: cs, s => ok c s && runsUnder ok TOIE3 cs (c.exec TOIE3 s).state

/-! ## Recovery registration (constructor of `Actuators`)

A `jmp_buf` is a block of bytes. Its size and the size of a pointer are fixed
by the target's C library, not by this repository: they appear as the length
of the byte lists and as the parameter `sizeofContext`. -/

set_option linter.dupNamespace false

/-- C `memcpy(dest, src, n)` on byte blocks: the first `n` bytes of `dest`
become the first `n` bytes of `src`, the rest of `dest` is kept. -/
def memcpy (dest src : List Nat) (n : Nat) : List Nat :=
  src.take n ++ dest.drop n

/-- Constructor `Actuators::Actuators(jmp_buf context)`, as far as `_env` is
concerned (`configuration()` sets pin directions only). The parameter
`context` is declared with an array type, so inside the constructor it is a
pointer and `sizeof(context)` is the size of a pointer: `sizeofContext`.
The argument `env` is the content of `_env` before the copy. -/
def Actuators.Actuators (sizeofContext : Nat) (context env : List Nat) : List Nat :=
  memcpy env context sizeofContext

/-! ## Sensor interface (Sensors.cpp / Sensors.h)

An `int` is a 16-bit two's complement integer. In `mesure_temperature`,
`niveau_turbidite` and the comparison of line 118 of `calculate_flow` a
`double` is an exact rational. The value returned by `calculate_flow` is
rounded to the `double` format of the target (`toDouble`). `analogRead` and `counting_pulses` are inputs: the ADC sample is an
argument, and the values returned by the successive calls of
`counting_pulses` form a stream `s 0, s 1, ...`. Text sent to `Serial` is not
modelled. -/

/-- Data members of `class Sensors`. -/
structure Sensors where
  nvSelState : Bool
  nvRinState : Bool

/-- Conversion scale of the thermistor, V per degree C. -/
def tempScale : ℚ := 0.025

/-- Conversion scale of the turbidity sensor, V per NTU. -/
def dirtyScale : ℚ := -0.001

/-- Minimum accepted dirty level, NTU. -/
def dirtyLevel : Int := 500

/-- Conversion scale of the flow sensor, L/s per Hz, as the source writes it.
The member holds this literal rounded to a `double`: `toDouble flowScale`. -/
def flowScale : ℚ := 0.00025

/-- Routine `Sensors::mesure_temperature`; `thermistor` is the value of
`analogRead(thermPin)`. -/
def mesure_temperature (thermistor : Int) : ℚ :=
  let tension : ℚ := (thermistor * 5.0) / 1024.0
  let temperature : ℚ := (tension - 2.5) / tempScale
  temperature

/-- Routine `Sensors::niveau_turbidite`; `sensorRead` is the value of
`analogRead(turbPin)`. The object is passed as every member function
receives it; the body does not read it. -/
def niveau_turbidite (_self : Sensors) (sensorRead : Int) : Int :=
  let tension : ℚ := (sensorRead * 5.0) / 1024.0
  let actualLevel : ℚ := ((tension - 3.0) / dirtyScale) + 1500
  if actualLevel > dirtyLevel then
    1
  else
    -1

/-- Value of an `int` (16 bits, two's complement) after an arithmetic result
`x` is stored in it. -/
def wrap16 (x : Int) : Int :=
  (x + 32768) % 65536 - 32768

/-- Arduino macro `abs(x)`, that is `((x)>0?(x):-(x))`, on an `int`. -/
def abs16 (x : Int) : Int :=
  if x > 0 then x else wrap16 (-x)

/-- Locals of `Sensors::calculate_flow` during its first loop, with three
bookkeeping fields that the code does not have and that no computation reads:
`samples` counts the calls of `counting_pulses` so far, `origin j` is the
stream position of the sample held in `mesuresPulses[j]`, and `checked` lists
the pairs of stream positions on which the stability comparison has been
evaluated, in order. -/
structure FlowLoop where
  i : Nat
  mesuresPulses : Nat → Int
  samples : Nat
  origin : Nat → Nat
  checked : List (Nat × Nat)

/-- Local `numberTimes` of `calculate_flow`. -/
def numberTimes : Nat := 3

/-- Array assignment `a[i] = v`. -/
def store {α : Type} (a : Nat → α) (i : Nat) (v : α) : Nat → α :=
  fun j => if j = i then v else a j

/-- Body of the first `for` loop of `calculate_flow` (lines 115 to 122); `s n`
is the value returned by the `n`-th call of `counting_pulses`. The index `i`
is decremented only when it is 1. -/
def calculate_flow_body (s : Nat → Int) (st : FlowLoop) : FlowLoop :=
  let st : FlowLoop :=
    { st with
      mesuresPulses := store st.mesuresPulses st.i (s st.samples)
      origin := store st.origin st.i st.samples
      samples := st.samples + 1 }
  if st.i = 1 then
    let gap : Int := abs16 (wrap16 (st.mesuresPulses 0 - st.mesuresPulses 1))
    let st : FlowLoop := { st with checked := st.checked ++ [(st.origin 0, st.origin 1)] }
    if (gap : ℚ) > (st.mesuresPulses 1 : ℚ) * 0.1 then
      { st with
        mesuresPulses := store st.mesuresPulses 0 (st.mesuresPulses 1)
        origin := store st.origin 0 (st.origin 1)
        i := st.i - 1 }
    else
      st
  else
    st

/-- First `for` loop of `calculate_flow` (lines 114 to 123). Each test of the
loop condition uses one unit of `fuel`; `none` means the fuel ran out before
the loop was left. -/
def calculate_flow_loop (s : Nat → Int) : Nat → FlowLoop → Option FlowLoop
  | 0, _ => none
  | fuel + 1, st =>
    if st.i < numberTimes then
      let st := calculate_flow_body s st
      calculate_flow_loop s fuel { st with i := st.i + 1 }
    else
      some st

/-- The comparison of line 118 on the stored counts `a` (in `mesuresPulses[0]`)
and `b` (in `mesuresPulses[1]`) finds them too different. -/
def GapTooLarge (a b : Int) : Prop :=
  ((abs16 (wrap16 (a - b)) : Int) : ℚ) > (b : ℚ) * 0.1

instance (a b : Int) : Decidable (GapTooLarge a b) := by
  unfold GapTooLarge; infer_instance

/-- Pairs of stream positions `(0,1), (1,2), ..., (n-1,n)`. -/
def adjacentPairs (n : Nat) : List (Nat × Nat) :=
  (List.range n).map fun t => (t, t + 1)

/-- Loop state at the test of the loop condition with `i = 1`, when position
`j` of the stream is held in `mesuresPulses[0]` and the next sample to come is
`s (j + 1)`. -/
def FlowLoop.Ready (s : Nat → Int) (j : Nat) (st : FlowLoop) : Prop :=
  st.i = 1 ∧ st.mesuresPulses 0 = s j ∧ st.origin 0 = j ∧ st.samples = j + 1 ∧
    st.checked = adjacentPairs j

/-- Loop state once the counts of the stream positions `k`, `k + 1`, `k + 2`
have been stored and the loop is about to be left. -/
def FlowLoop.Final (s : Nat → Int) (k : Nat) (st : FlowLoop) : Prop :=
  st.i = 3 ∧
    st.mesuresPulses 0 = s k ∧ st.mesuresPulses 1 = s (k + 1) ∧ st.mesuresPulses 2 = s (k + 2) ∧
    st.origin 0 = k ∧ st.origin 1 = k + 1 ∧ st.origin 2 = k + 2 ∧
    st.samples = k + 3 ∧ st.checked = adjacentPairs (k + 1)

/-- Second `for` loop of `calculate_flow` (lines 125 to 127): the `int` sum of
the three stored counts. -/
def calculate_flow_sum (mesuresPulses : Nat → Int) : Int :=
  let sum : Int := 0
  let sum := wrap16 (sum + mesuresPulses 0)
  let sum := wrap16 (sum + mesuresPulses 1)
  let sum := wrap16 (sum + mesuresPulses 2)
  sum

/-- Round to the nearest integer, a half to the even neighbour. -/
def roundHalfEven (x : ℚ) : Int :=
  if x - ⌊x⌋ < 1 / 2 then ⌊x⌋
  else if 1 / 2 < x - ⌊x⌋ then ⌊x⌋ + 1
  else if ⌊x⌋ % 2 = 0 then ⌊x⌋ else ⌊x⌋ + 1

/-- Significand bits of a `double` on the target: avr-gcc implements `double`
as the 32-bit IEEE 754 format, which has 24. -/
def doubleSignificand : Nat := 24

/-- The `double` nearest to the real `x` (round to nearest, ties to even), as
an exact rational. The exponent range is not modelled: the values of
`calculate_flow` are far from its ends. -/
def toDouble (x : ℚ) : ℚ :=
  let e : Int := Int.log 2 |x| - ((doubleSignificand : Int) - 1)
  (roundHalfEven (x / 2 ^ e) : ℚ) * 2 ^ e

/-- Line 129 of `calculate_flow`: `(2 * sum / 3)` is computed on `int`s (C
division truncates); the quotient is converted to `double` (exactly, an `int`
has 16 bits) and multiplied by the `double` member `flowScale`, the product
being rounded to a `double`. -/
def calculate_flow_scale (sum : Int) : ℚ :=
  toDouble (((Int.tdiv (wrap16 (2 * sum)) 3 : Int) : ℚ) * toDouble flowScale)

/-- What a call of `calculate_flow` leaves: the value it returns and the
locals at the end of the first loop. -/
structure FlowResult where
  flow : ℚ
  locals : FlowLoop

/-- The three counts held in `mesuresPulses` when `calculate_flow` returns. -/
def FlowResult.retained (r : FlowResult) : Int × Int × Int :=
  (r.locals.mesuresPulses 0, r.locals.mesuresPulses 1, r.locals.mesuresPulses 2)

/-- Locals at the entry of `calculate_flow`. The array is not initialised by
the code; every element is written before it is read. -/
def calculate_flow_entry : FlowLoop :=
  { i := 0
    mesuresPulses := fun _ => 0
    samples := 0
    origin := fun _ => 0
    checked := [] }

/-- Routine `Sensors::calculate_flow` on the sample stream `s`. -/
def calculate_flow (fuel : Nat) (s : Nat → Int) : Option FlowResult :=
  match calculate_flow_loop s fuel calculate_flow_entry with
  | none => none
  | some st =>
    some { flow := calculate_flow_scale (calculate_flow_sum st.mesuresPulses), locals := st }

/-- Stability of the pair at stream positions `k`, `k + 1` as the spec words
it: `|s k - s (k+1)| ≤ 0.1 · s (k+1)`. -/
def StablePair (s : Nat → Int) (k : Nat) : Prop :=
  ((|s k - s (k + 1)| : Int) : ℚ) ≤ 0.1 * (s (k + 1) : ℚ)

instance (s : Nat → Int) (k : Nat) : Decidable (StablePair s k) := by
  unfold StablePair; infer_instance

/-- Position `k` is the first one whose pair is stable. -/
def FirstStable (s : Nat → Int) (k : Nat) : Prop :=
  StablePair s k ∧ ∀ j, j < k → ¬ StablePair s j

/-- Every sample is a pulse count that an `int` holds: `0 ≤ s n ≤ 32767`. -/
def CountStream (s : Nat → Int) : Prop :=
  ∀ n, 0 ≤ s n ∧ s n ≤ 32767

/-- The stream `10, 10, 11, 10, 10, ...`: its first pair is stable and the sum
of its first three counts is not a multiple of 3. -/
def tenTenEleven : Nat → Int :=
  fun n => if n = 2 then 11 else 10

/-- The constant stream `6000, 6000, ...`: the sum of three counts fits an
`int`, twice the sum does not. -/
def sixThousand : Nat → Int :=
  fun _ => 6000

/-- The stream `100, 200, 205, 210, 210, ...` of the spec's flow scenario. -/
def scenarioStream : Nat → Int :=
  fun n => if n = 0 then 100 else if n = 1 then 200 else if n = 2 then 205 else 210

/-! ## Heater and power rail, timer mask -/

/-- The wash pump requires the main relay. -/
def PumpNeedsRelay (s : State) : Prop :=
  s.stateCyclage = HIGH → s.stateRelayOn = HIGH

instance (s : State) : Decidable (PumpNeedsRelay s) := by
  unfold PumpNeedsRelay; infer_instance

/-- Caller discipline: `relayOn_off` is issued only while the wash pump is LOW
in the cache. Other commands are free. -/
def relayOffOnlyWhenPumpOff : Command → State → Bool
  | .off .relayOn, s => !s.stateCyclage
  | _, _ => true

/-- All cache fields and pins LOW, with two other interrupt enables of timer 3
set in the mask register: `TIMSK3 = 0b00000110`. -/
def maskBusy : State :=
  { allLow with TIMSK3 := 6 }

/-! ## Unfolding lemmas shared by the proofs -/

theorem error_management_neg_one (s : State) : error_management (-1) s = .returned s := by
  simp [error_management]

theorem error_management_one (s : State) : error_management 1 s = .escaped 1 s := by
  simp [error_management]

theorem error_management_three (s : State) : error_management 3 s = .escaped 3 s := by
  simp [error_management]

theorem error_management_four (s : State) : error_management 4 s = .escaped 4 s := by
  simp [error_management]

/-! ## Escapes -/

/-- C1. Atomicity on escape: when the `on` routine of a guarded actuator
(cyclage, chauffage, remplissage, regeneration, diverter, vidange, sechage,
doseur) escapes with a reason code, the state at the jump is the state before
the call: cache fields, pin levels and `TIMSK3` are all untouched. -/
theorem guarded_on_escape_atomic (TOIE3 : Nat) (a : Actuator) (s : State) (code : Int)
    (hg : a.guarded = true) (h : (a.on TOIE3 s).code = some code) :
    a.on TOIE3 s = .escaped code s := by
  cases a
  case relayOn => exact absurd hg (by decide)
  all_goals
    simp only [Actuator.on, cyclage_on, chauffage_on, remplissage_on, regeneration_on,
      diverter_on, vidange_on, sechage_on, doseur_on, error_management_neg_one,
      error_management_one, error_management_three, error_management_four] at h ⊢
    split_ifs at h ⊢ <;> simp_all [Outcome.code]

/-- Witness for C1 (cold start): right after `init_variables` the main relay is
LOW, `cyclage_on` escapes with code 1 and the state is the one before the call. -/
theorem guarded_on_escape_atomic_witness :
    (Actuator.cyclage.guarded = true ∧
      (Actuator.cyclage.on 0 (init_variables allLow)).code = some 1) ∧
    Actuator.cyclage.on 0 (init_variables allLow) = .escaped 1 (init_variables allLow) :=
  ⟨⟨rfl, rfl⟩, guarded_on_escape_atomic 0 .cyclage (init_variables allLow) 1 rfl rfl⟩

/-- C2. Reason-code table. In every state: `cyclage_on`, `remplissage_on`,
`regeneration_on` and `vidange_on` escape with code 1 exactly when the main
relay is LOW and return otherwise; `chauffage_on` escapes with code 3 exactly
when the wash pump is LOW and returns otherwise; `diverter_on` and `doseur_on`
escape with 1 exactly when the relay is LOW, with 3 exactly when the relay is
HIGH and the wash pump LOW, and return otherwise; `sechage_on` escapes with 1
exactly when the relay is LOW, with 4 exactly when relay and wash pump are both
HIGH, and returns otherwise. No guarded `on` delivers 2, 5 or -1. -/
theorem reason_code_table (TOIE3 : Nat) (s : State) :
    (((cyclage_on s).code = some 1 ↔ s.stateRelayOn = LOW) ∧
      ((cyclage_on s).code = none ↔ ¬ s.stateRelayOn = LOW)) ∧
    (((remplissage_on s).code = some 1 ↔ s.stateRelayOn = LOW) ∧
      ((remplissage_on s).code = none ↔ ¬ s.stateRelayOn = LOW)) ∧
    (((regeneration_on s).code = some 1 ↔ s.stateRelayOn = LOW) ∧
      ((regeneration_on s).code = none ↔ ¬ s.stateRelayOn = LOW)) ∧
    (((vidange_on s).code = some 1 ↔ s.stateRelayOn = LOW) ∧
      ((vidange_on s).code = none ↔ ¬ s.stateRelayOn = LOW)) ∧
    (((chauffage_on s).code = some 3 ↔ s.stateCyclage = LOW) ∧
      ((chauffage_on s).code = none ↔ ¬ s.stateCyclage = LOW)) ∧
    (((diverter_on TOIE3 s).code = some 1 ↔ s.stateRelayOn = LOW) ∧
      ((diverter_on TOIE3 s).code = some 3 ↔ s.stateRelayOn = HIGH ∧ s.stateCyclage = LOW) ∧
      ((diverter_on TOIE3 s).code = none ↔ s.stateRelayOn = HIGH ∧ s.stateCyclage = HIGH)) ∧
    (((doseur_on s).code = some 1 ↔ s.stateRelayOn = LOW) ∧
      ((doseur_on s).code = some 3 ↔ s.stateRelayOn = HIGH ∧ s.stateCyclage = LOW) ∧
      ((doseur_on s).code = none ↔ s.stateRelayOn = HIGH ∧ s.stateCyclage = HIGH)) ∧
    (((sechage_on s).code = some 1 ↔ s.stateRelayOn = LOW) ∧
      ((sechage_on s).code = some 4 ↔ s.stateRelayOn = HIGH ∧ s.stateCyclage = HIGH) ∧
      ((sechage_on s).code = none ↔ s.stateRelayOn = HIGH ∧ s.stateCyclage = LOW)) ∧
    (∀ a : Actuator, a.guarded = true →
      (a.on TOIE3 s).code ≠ some 2 ∧ (a.on TOIE3 s).code ≠ some 5 ∧
        (a.on TOIE3 s).code ≠ some (-1)) := by
  refine ⟨?_, ?_, ?_, ?_, ?_, ?_, ?_, ?_, ?_⟩
  case refine_9 =>
    intro a _
    cases a <;> cases hr : s.stateRelayOn <;> cases hc : s.stateCyclage <;>
      simp [Actuator.on, cyclage_on, chauffage_on, remplissage_on, regeneration_on,
        diverter_on, vidange_on, sechage_on, doseur_on, error_management, Outcome.code, hr, hc]
  all_goals
    cases hr : s.stateRelayOn <;> cases hc : s.stateCyclage <;>
      simp [cyclage_on, chauffage_on, remplissage_on, regeneration_on,
        diverter_on, vidange_on, sechage_on, doseur_on, error_management, Outcome.code, hr, hc]

/-! ## Effect and frame of the commands -/

theorem testBit_or_shift_mod (x T i : Nat) (hi : i < 8) :
    ((x ||| (1 <<< T)) % 256).testBit i = (x.testBit i || decide (T = i)) := by
  have h256 : (256 : Nat) = 2 ^ 8 := by norm_num
  rw [h256, Nat.testBit_mod_two_pow, Nat.testBit_or, Nat.one_shiftLeft, Nat.testBit_two_pow]
  simp [hi]

theorem Outcome.eq_returned_of_code (o : Outcome) (h : o.code = none) :
    o = .returned o.state := by
  cases o <;> simp_all [Outcome.code, Outcome.state]

/-- C3. Effect and frame of a successful `on`. Whenever a guarded `on` returns
normally, and for `relayOn_on` in every state, the call returns a state in
which the actuator's cache field and command pin are HIGH while every other
cache field and every other pin is as before. `flagTimer3` and `TIMSK3` are as
before too, except for `diverter_on`, which sets `flagTimer3` HIGH, sets bit
`TOIE3` of `TIMSK3` (the overflow interrupt enable) and keeps its other bits. -/
theorem on_effect_frame (TOIE3 : Nat) (a : Actuator) (s : State) (hT : TOIE3 < 8)
    (h : a = .relayOn ∨ (a.on TOIE3 s).code = none) :
    ∃ s', a.on TOIE3 s = .returned s' ∧
      s'.cache a = HIGH ∧ s'.pins a.pin = HIGH ∧
      (∀ b, b ≠ a → s'.cache b = s.cache b) ∧
      (∀ p, p ≠ a.pin → s'.pins p = s.pins p) ∧
      s'.cntrlCyclage1 = s.cntrlCyclage1 ∧ s'.cntrlCyclage2 = s.cntrlCyclage2 ∧
      (a ≠ .diverter → s'.flagTimer3 = s.flagTimer3 ∧ s'.TIMSK3 = s.TIMSK3) ∧
      (a = .diverter → s'.flagTimer3 = HIGH ∧ s'.timer3OverflowEnabled TOIE3 = true ∧
        ∀ i, i < 8 → i ≠ TOIE3 → s'.TIMSK3.testBit i = s.TIMSK3.testBit i) := by
  have hret : a.on TOIE3 s = .returned (a.on TOIE3 s).state := by
    rcases h with h | h
    · subst h; rfl
    · exact Outcome.eq_returned_of_code _ h
  refine ⟨_, hret, ?_, ?_, ?_, ?_, ?_, ?_, ?_, ?_⟩ <;> clear hret <;>
    cases a <;> cases hr : s.stateRelayOn <;> cases hc : s.stateCyclage <;>
    simp only [Actuator.on, cyclage_on, chauffage_on, remplissage_on, regeneration_on,
      diverter_on, vidange_on, sechage_on, doseur_on, relayOn_on, error_management_neg_one,
      error_management_one, error_management_three, error_management_four,
      Outcome.code, Outcome.state, hr, hc] at h ⊢ <;>
    first
      | (simp at h; done)
      | (intro (b : Actuator) hb; cases b <;> simp_all [State.cache, digitalWrite])
      | (intro (p : Nat) hp; simp_all [digitalWrite, Actuator.pin])
      | (simp [State.cache, digitalWrite, Actuator.pin]; done)
      | (intro _
         refine ⟨by simp, ?_, ?_⟩
         · simp [digitalWrite, State.timer3OverflowEnabled, testBit_or_shift_mod, hT]
         · intro i hi hne
           simp [digitalWrite, testBit_or_shift_mod, hi, Ne.symm hne])

/-- Witness for C3: with the relay and the wash pump on, `diverter_on` returns
and the frame statement holds there (taking `TOIE3 = 0`). -/
theorem on_effect_frame_witness :
    (0 < 8 ∧ (Actuator.diverter = .relayOn ∨
      (Actuator.diverter.on 0 (run 0 [.on .relayOn, .on .cyclage] allLow)).code = none)) ∧
    ∃ s', Actuator.diverter.on 0 (run 0 [.on .relayOn, .on .cyclage] allLow) = .returned s' ∧
      s'.cache .diverter = HIGH ∧ s'.pins Actuator.diverter.pin = HIGH ∧
      (∀ b, b ≠ .diverter → s'.cache b = (run 0 [.on .relayOn, .on .cyclage] allLow).cache b) ∧
      (∀ p, p ≠ Actuator.diverter.pin →
        s'.pins p = (run 0 [.on .relayOn, .on .cyclage] allLow).pins p) ∧
      s'.cntrlCyclage1 = (run 0 [.on .relayOn, .on .cyclage] allLow).cntrlCyclage1 ∧
      s'.cntrlCyclage2 = (run 0 [.on .relayOn, .on .cyclage] allLow).cntrlCyclage2 ∧
      (Actuator.diverter ≠ .diverter →
        s'.flagTimer3 = (run 0 [.on .relayOn, .on .cyclage] allLow).flagTimer3 ∧
        s'.TIMSK3 = (run 0 [.on .relayOn, .on .cyclage] allLow).TIMSK3) ∧
      (Actuator.diverter = .diverter →
        s'.flagTimer3 = HIGH ∧ s'.timer3OverflowEnabled 0 = true ∧
        ∀ i, i < 8 → i ≠ 0 →
          s'.TIMSK3.testBit i = (run 0 [.on .relayOn, .on .cyclage] allLow).TIMSK3.testBit i) :=
  ⟨⟨by decide, Or.inr rfl⟩,
    on_effect_frame 0 .diverter (run 0 [.on .relayOn, .on .cyclage] allLow) (by decide)
      (Or.inr rfl)⟩

/-- C4. Unconditional `off`. In every state each of the nine `off` routines
returns normally; afterwards the actuator's cache field and command pin are
LOW and every other cache field and every other pin is as before. `flagTimer3`
and `TIMSK3` are as before too, except for `diverter_off`, which sets
`flagTimer3` LOW and leaves the timer-3 overflow interrupt disabled. -/
theorem off_unconditional (TOIE3 : Nat) (a : Actuator) (s : State) :
    ∃ s', (Command.off a).exec TOIE3 s = .returned s' ∧
      s'.cache a = LOW ∧ s'.pins a.pin = LOW ∧
      (∀ b, b ≠ a → s'.cache b = s.cache b) ∧
      (∀ p, p ≠ a.pin → s'.pins p = s.pins p) ∧
      s'.cntrlCyclage1 = s.cntrlCyclage1 ∧ s'.cntrlCyclage2 = s.cntrlCyclage2 ∧
      (a ≠ .diverter → s'.flagTimer3 = s.flagTimer3 ∧ s'.TIMSK3 = s.TIMSK3) ∧
      (a = .diverter → s'.flagTimer3 = LOW ∧ s'.timer3OverflowEnabled TOIE3 = false) := by
  refine ⟨_, rfl, ?_, ?_, ?_, ?_, ?_, ?_, ?_, ?_⟩ <;>
    cases a <;>
    simp only [Actuator.off, relayOn_off, cyclage_off, chauffage_off, remplissage_off,
      regeneration_off, diverter_off, vidange_off, sechage_off, doseur_off] <;>
    first
      | (intro (b : Actuator) hb; cases b <;> simp_all [State.cache, digitalWrite])
      | (intro (p : Nat) hp; simp_all [digitalWrite, Actuator.pin])
      | simp [State.cache, digitalWrite, Actuator.pin, State.timer3OverflowEnabled]

/-! ## Sequences of commands -/

/-- An invariant that holds initially and is preserved by every command holds
after any sequence of commands. -/
theorem run_preserves (TOIE3 : Nat) (P : State → Prop)
    (hstep : ∀ c s, P s → P (Command.exec TOIE3 c s).state) (cmds : List Command) :
    ∀ s, P s → P (run TOIE3 cmds s) := by
  induction cmds with
  | nil => intro s hs; exact hs
  | cons c cs ih => intro s hs; exact ih _ (hstep c s hs)

/-- C5. Timer flag tracks the diverter: after `init_variables` and any finite
sequence of commands (escaping ones included), `flagTimer3` is HIGH exactly
when `stateDiverter` is HIGH. -/
theorem timer_flag_tracks_diverter (TOIE3 : Nat) (s0 : State) (cmds : List Command) :
    (run TOIE3 cmds (init_variables s0)).flagTimer3 = HIGH ↔
      (run TOIE3 cmds (init_variables s0)).stateDiverter = HIGH := by
  have key : (run TOIE3 cmds (init_variables s0)).flagTimer3 =
      (run TOIE3 cmds (init_variables s0)).stateDiverter := by
    refine run_preserves TOIE3 (fun s => s.flagTimer3 = s.stateDiverter) ?_ cmds _ rfl
    intro c s hs
    rcases c with _ | a | a
    · rfl
    · cases a <;> cases hr : s.stateRelayOn <;> cases hc : s.stateCyclage <;>
        simp [Command.exec, Actuator.on, cyclage_on, chauffage_on, remplissage_on,
          regeneration_on, diverter_on, vidange_on, sechage_on, doseur_on, relayOn_on,
          error_management, Outcome.state, digitalWrite, hr, hc, hs]
    · cases a <;>
        simp [Command.exec, Actuator.off, relayOn_off, cyclage_off, chauffage_off,
          remplissage_off, regeneration_off, diverter_off, vidange_off, sechage_off,
          doseur_off, Outcome.state, digitalWrite, hs]
  rw [key]

/-- C6 fails as stated: after `relayOn_on`, `init_variables` clears the cache
but the relay pin keeps the HIGH level that was written to it. -/
theorem init_variables_leaves_pin_high :
    (init_variables (relayOn_on allLow)).stateRelayOn = LOW ∧
    (init_variables (relayOn_on allLow)).pins relayOnPin = HIGH ∧
    ¬ (∀ a : Actuator, (init_variables (relayOn_on allLow)).pins a.pin = LOW) := by
  refine ⟨rfl, rfl, fun h => ?_⟩
  exact absurd (h .relayOn) (by decide)

/-- C6, amended. Called in any state, `init_variables` leaves the nine actuator
cache fields and `flagTimer3` LOW. It writes no pin and no register: every pin
level and `TIMSK3` are as before the call. -/
theorem init_variables_effect (s : State) :
    (∀ a : Actuator, (init_variables s).cache a = LOW) ∧
    (init_variables s).flagTimer3 = LOW ∧
    (init_variables s).pins = s.pins ∧
    (init_variables s).TIMSK3 = s.TIMSK3 := by
  refine ⟨fun a => ?_, rfl, rfl, rfl⟩
  cases a <;> rfl

/-- An invariant that is preserved by every allowed command holds after any
sequence of commands that respects the discipline. -/
theorem run_preserves_under (TOIE3 : Nat) (ok : Command → State → Bool) (P : State → Prop)
    (hstep : ∀ c s, P s → ok c s = true → P (Command.exec TOIE3 c s).state)
    (cmds : List Command) :
    ∀ s, P s → runsUnder ok TOIE3 cmds s = true → P (run TOIE3 cmds s) := by
  induction cmds with
  | nil => intro s hs _; exact hs
  | cons c cs ih =>
    intro s hs hok
    rw [runsUnder, Bool.and_eq_true] at hok
    exact ih _ (hstep c s hs hok.1) hok.2

/-- C7 fails as stated: `relayOn_off` has no guard and switches nothing else
off, so after relay on, wash pump on, relay off the cache shows the wash pump
HIGH and the main relay LOW. -/
theorem main_relay_invariant_broken_by_relayOn_off :
    (run 0 [.on .relayOn, .on .cyclage, .off .relayOn] (init_variables allLow)).stateCyclage
      = HIGH ∧
    (run 0 [.on .relayOn, .on .cyclage, .off .relayOn] (init_variables allLow)).stateRelayOn
      = LOW ∧
    ¬ MainRelayInvariant
      (run 0 [.on .relayOn, .on .cyclage, .off .relayOn] (init_variables allLow)) := by
  refine ⟨rfl, rfl, ?_⟩
  decide

/-- C7, amended. In every state reached from `init_variables` by a finite
sequence of commands in which `relayOn_off` is only issued while wash pump,
fill valve, regeneration valve, drain pump, diverter, dispenser and dryer fan
are all LOW in the cache, each of these seven being HIGH implies that the main
relay is HIGH. -/
theorem main_relay_invariant_disciplined (TOIE3 : Nat) (s0 : State) (cmds : List Command)
    (h : runsUnder relayOffOnlyWhenIdle TOIE3 cmds (init_variables s0) = true) :
    MainRelayInvariant (run TOIE3 cmds (init_variables s0)) := by
  refine run_preserves_under TOIE3 relayOffOnlyWhenIdle MainRelayInvariant ?_ cmds _ ?_ h
  · intro c s hs hok
    rcases c with _ | a | a
    · simp [Command.exec, Outcome.state, init_variables, MainRelayInvariant]
    · cases a <;> cases hr : s.stateRelayOn <;> cases hc : s.stateCyclage <;>
        simp_all [Command.exec, Actuator.on, cyclage_on, chauffage_on, remplissage_on,
          regeneration_on, diverter_on, vidange_on, sechage_on, doseur_on, relayOn_on,
          error_management, Outcome.state, digitalWrite, MainRelayInvariant]
    · cases a <;>
        simp_all [Command.exec, Actuator.off, relayOn_off, cyclage_off, chauffage_off,
          remplissage_off, regeneration_off, diverter_off, vidange_off, sechage_off,
          doseur_off, Outcome.state, digitalWrite, MainRelayInvariant, relayOffOnlyWhenIdle]
  · simp [init_variables, MainRelayInvariant]

/-- Witness for C7: a run that switches the relay off only after the wash pump
has been switched off. -/
theorem main_relay_invariant_disciplined_witness :
    runsUnder relayOffOnlyWhenIdle 0
        [.on .relayOn, .on .cyclage, .on .vidange, .off .vidange, .off .cyclage, .off .relayOn,
          .on .remplissage]
        (init_variables allLow) = true ∧
    MainRelayInvariant
      (run 0
        [.on .relayOn, .on .cyclage, .on .vidange, .off .vidange, .off .cyclage, .off .relayOn,
          .on .remplissage]
        (init_variables allLow)) :=
  ⟨by decide, main_relay_invariant_disciplined 0 allLow _ (by decide)⟩

/-- C8 fails as stated: `cyclage_off` has no guard and switches nothing else
off, so after relay on, wash pump on, heater on, wash pump off the cache shows
the heater HIGH and the wash pump LOW. -/
theorem wash_pump_invariant_broken_by_cyclage_off :
    (run 0 [.on .relayOn, .on .cyclage, .on .chauffage, .off .cyclage]
      (init_variables allLow)).stateChauffage = HIGH ∧
    (run 0 [.on .relayOn, .on .cyclage, .on .chauffage, .off .cyclage]
      (init_variables allLow)).stateCyclage = LOW ∧
    ¬ WashPumpInvariant
      (run 0 [.on .relayOn, .on .cyclage, .on .chauffage, .off .cyclage]
        (init_variables allLow)) := by
  refine ⟨rfl, rfl, ?_⟩
  decide

/-- C8, amended. In every state reached from `init_variables` by a finite
sequence of commands in which `cyclage_off` is only issued while heater,
diverter and dispenser are all LOW in the cache, each of these three being HIGH
implies that the wash pump is HIGH. -/
theorem wash_pump_invariant_disciplined (TOIE3 : Nat) (s0 : State) (cmds : List Command)
    (h : runsUnder cyclageOffOnlyWhenIdle TOIE3 cmds (init_variables s0) = true) :
    WashPumpInvariant (run TOIE3 cmds (init_variables s0)) := by
  refine run_preserves_under TOIE3 cyclageOffOnlyWhenIdle WashPumpInvariant ?_ cmds _ ?_ h
  · intro c s hs hok
    rcases c with _ | a | a
    · simp [Command.exec, Outcome.state, init_variables, WashPumpInvariant]
    · cases a <;> cases hr : s.stateRelayOn <;> cases hc : s.stateCyclage <;>
        simp_all [Command.exec, Actuator.on, cyclage_on, chauffage_on, remplissage_on,
          regeneration_on, diverter_on, vidange_on, sechage_on, doseur_on, relayOn_on,
          error_management, Outcome.state, digitalWrite, WashPumpInvariant]
    · cases a <;>
        simp_all [Command.exec, Actuator.off, relayOn_off, cyclage_off, chauffage_off,
          remplissage_off, regeneration_off, diverter_off, vidange_off, sechage_off,
          doseur_off, Outcome.state, digitalWrite, WashPumpInvariant, cyclageOffOnlyWhenIdle]
  · simp [init_variables, WashPumpInvariant]

/-- Witness for C8: a run that switches the wash pump off only after the heater
has been switched off. -/
theorem wash_pump_invariant_disciplined_witness :
    runsUnder cyclageOffOnlyWhenIdle 0
        [.on .relayOn, .on .cyclage, .on .chauffage, .off .chauffage, .off .cyclage, .on .doseur]
        (init_variables allLow) = true ∧
    WashPumpInvariant
      (run 0
        [.on .relayOn, .on .cyclage, .on .chauffage, .off .chauffage, .off .cyclage, .on .doseur]
        (init_variables allLow)) :=
  ⟨by decide, wash_pump_invariant_disciplined 0 allLow _ (by decide)⟩

/-- C9 fails as stated: `cyclage_on` checks the main relay only, so after relay
on, dryer fan on, wash pump on the cache shows fan and wash pump both HIGH. -/
theorem dryer_fan_invariant_broken_by_cyclage_on :
    (run 0 [.on .relayOn, .on .sechage, .on .cyclage] (init_variables allLow)).stateSechage
      = HIGH ∧
    (run 0 [.on .relayOn, .on .sechage, .on .cyclage] (init_variables allLow)).stateCyclage
      = HIGH ∧
    ¬ DryerFanInvariant
      (run 0 [.on .relayOn, .on .sechage, .on .cyclage] (init_variables allLow)) := by
  refine ⟨rfl, rfl, ?_⟩
  decide

/-- C9, amended. In every state reached from `init_variables` by a finite
sequence of commands in which `cyclage_on` is only issued while the dryer fan
is LOW in the cache, the dryer fan being HIGH implies that the wash pump is
LOW. -/
theorem dryer_fan_invariant_disciplined (TOIE3 : Nat) (s0 : State) (cmds : List Command)
    (h : runsUnder cyclageOnOnlyWhenFanOff TOIE3 cmds (init_variables s0) = true) :
    DryerFanInvariant (run TOIE3 cmds (init_variables s0)) := by
  refine run_preserves_under TOIE3 cyclageOnOnlyWhenFanOff DryerFanInvariant ?_ cmds _ ?_ h
  · intro c s hs hok
    rcases c with _ | a | a
    · simp [Command.exec, Outcome.state, init_variables, DryerFanInvariant]
    · cases a <;> cases hr : s.stateRelayOn <;> cases hc : s.stateCyclage <;>
        simp_all [Command.exec, Actuator.on, cyclage_on, chauffage_on, remplissage_on,
          regeneration_on, diverter_on, vidange_on, sechage_on, doseur_on, relayOn_on,
          error_management, Outcome.state, digitalWrite, DryerFanInvariant,
          cyclageOnOnlyWhenFanOff]
    · cases a <;>
        simp_all [Command.exec, Actuator.off, relayOn_off, cyclage_off, chauffage_off,
          remplissage_off, regeneration_off, diverter_off, vidange_off, sechage_off,
          doseur_off, Outcome.state, digitalWrite, DryerFanInvariant]
  · simp [init_variables, DryerFanInvariant]

/-- Witness for C9: a run that starts the wash pump again only after the dryer
fan has been switched off. -/
theorem dryer_fan_invariant_disciplined_witness :
    runsUnder cyclageOnOnlyWhenFanOff 0
        [.on .relayOn, .on .cyclage, .off .cyclage, .on .sechage, .off .sechage, .on .cyclage]
        (init_variables allLow) = true ∧
    DryerFanInvariant
      (run 0
        [.on .relayOn, .on .cyclage, .off .cyclage, .on .sechage, .off .sechage, .on .cyclage]
        (init_variables allLow)) :=
  ⟨by decide, dryer_fan_invariant_disciplined 0 allLow _ (by decide)⟩

/-- The nine command pins are pairwise distinct. -/
theorem Actuator.pin_injective : ∀ a b : Actuator, a.pin = b.pin → a = b := by
  decide

/-- An `on` routine either leaves the state as it was, or sets its own cache
field and pin HIGH and keeps the other cache fields and pins. -/
theorem on_state_cases (TOIE3 : Nat) (a : Actuator) (s : State) :
    (a.on TOIE3 s).state = s ∨
    ((a.on TOIE3 s).state.cache a = HIGH ∧ (a.on TOIE3 s).state.pins a.pin = HIGH ∧
      (∀ b, b ≠ a → (a.on TOIE3 s).state.cache b = s.cache b) ∧
      (∀ p, p ≠ a.pin → (a.on TOIE3 s).state.pins p = s.pins p)) := by
  cases a <;> cases hr : s.stateRelayOn <;> cases hc : s.stateCyclage <;>
    simp only [Actuator.on, cyclage_on, chauffage_on, remplissage_on, regeneration_on,
      diverter_on, vidange_on, sechage_on, doseur_on, relayOn_on, error_management_neg_one,
      error_management_one, error_management_three, error_management_four,
      Outcome.state, hr, hc] <;>
    first
      | (left; rfl)
      | (right
         refine ⟨rfl, ?_, ?_, ?_⟩
         · simp [digitalWrite, Actuator.pin]
         · intro (b : Actuator) hb
           cases b <;> first | exact absurd rfl hb | simp [State.cache, digitalWrite, hr, hc]
         · intro (p : Nat) hp; simp_all [digitalWrite, Actuator.pin])

/-- An `off` routine sets its own cache field and pin LOW and keeps the other
cache fields and pins. -/
theorem off_state_frame (TOIE3 : Nat) (a : Actuator) (s : State) :
    (a.off TOIE3 s).cache a = LOW ∧ (a.off TOIE3 s).pins a.pin = LOW ∧
      (∀ b, b ≠ a → (a.off TOIE3 s).cache b = s.cache b) ∧
      (∀ p, p ≠ a.pin → (a.off TOIE3 s).pins p = s.pins p) := by
  cases a <;>
    simp only [Actuator.off, relayOn_off, cyclage_off, chauffage_off, remplissage_off,
      regeneration_off, diverter_off, vidange_off, sechage_off, doseur_off] <;>
    (refine ⟨rfl, ?_, ?_, ?_⟩
     · simp [digitalWrite, Actuator.pin]
     · intro (b : Actuator) hb; cases b <;> first | rfl | exact absurd rfl hb
     · intro (p : Nat) hp; simp_all [digitalWrite, Actuator.pin])

/-- C10. Cache mirrors pins: every `on` and every `off` command, whether it
returns or escapes, preserves the agreement between the nine cache fields and
the levels last written to their command pins. -/
theorem cache_mirrors_pins_preserved (TOIE3 : Nat) (c : Command) (s : State)
    (hc : c ≠ .init_variables) (h : CacheMirrorsPins s) :
    CacheMirrorsPins (c.exec TOIE3 s).state := by
  intro b
  rcases c with _ | a | a
  · exact absurd rfl hc
  · rcases on_state_cases TOIE3 a s with he | ⟨h1, h2, h3, h4⟩
    · simp only [Command.exec, he]; exact h b
    · by_cases hb : b = a
      · subst hb; simp only [Command.exec, h1, h2]
      · simp only [Command.exec, h3 b hb,
          h4 b.pin (fun e => hb (Actuator.pin_injective b a e))]
        exact h b
  · obtain ⟨h1, h2, h3, h4⟩ := off_state_frame TOIE3 a s
    by_cases hb : b = a
    · subst hb; simp only [Command.exec, Outcome.state, h1, h2]
    · simp only [Command.exec, Outcome.state, h3 b hb,
        h4 b.pin (fun e => hb (Actuator.pin_injective b a e))]
      exact h b

/-- Witness for C10: with relay and wash pump on (cache and pins in agreement),
`sechage_on` escapes with code 4 and the agreement still holds. -/
theorem cache_mirrors_pins_preserved_witness :
    (Command.on .sechage ≠ .init_variables ∧
      CacheMirrorsPins (run 0 [.on .relayOn, .on .cyclage] allLow)) ∧
    CacheMirrorsPins
      ((Command.on .sechage).exec 0 (run 0 [.on .relayOn, .on .cyclage] allLow)).state :=
  ⟨⟨by decide, by decide⟩,
    cache_mirrors_pins_preserved 0 (.on .sechage) (run 0 [.on .relayOn, .on .cyclage] allLow)
      (by decide) (by decide)⟩

/-! ## Idempotence and round trip -/

/-- C11. Idempotence of `off`: for each of the nine `off` routines and every
state, running the routine twice leaves exactly the state that running it once
leaves (cache, pins and `TIMSK3`). -/
theorem off_idempotent (TOIE3 : Nat) (a : Actuator) (s : State) :
    a.off TOIE3 (a.off TOIE3 s) = a.off TOIE3 s := by
  cases a <;>
    simp only [Actuator.off, relayOn_off, cyclage_off, chauffage_off, remplissage_off,
      regeneration_off, diverter_off, vidange_off, sechage_off, doseur_off, digitalWrite,
      State.mk.injEq, true_and, and_true, and_self] <;>
    first
      | (funext p; split_ifs <;> rfl)
      | (refine ⟨?_, ?_⟩
         · funext p; split_ifs <;> rfl
         · simp)

/-- In any state in which `on` returns, `on` followed by `off` leaves the
actuator LOW and every other cache field, pin and (but for the diverter)
`flagTimer3` as before the `on`. -/
theorem on_then_off_frame (TOIE3 : Nat) (a : Actuator) (s : State)
    (h : (a.on TOIE3 s).code = none) :
    ∃ s1, a.on TOIE3 s = .returned s1 ∧
      (a.off TOIE3 s1).cache a = LOW ∧ (a.off TOIE3 s1).pins a.pin = LOW ∧
      (∀ b, b ≠ a → (a.off TOIE3 s1).cache b = s.cache b) ∧
      (∀ p, p ≠ a.pin → (a.off TOIE3 s1).pins p = s.pins p) ∧
      (a = .diverter → (a.off TOIE3 s1).flagTimer3 = LOW) ∧
      (a ≠ .diverter → (a.off TOIE3 s1).flagTimer3 = s.flagTimer3) := by
  refine ⟨(a.on TOIE3 s).state, Outcome.eq_returned_of_code _ h, ?_⟩
  obtain ⟨f1, f2, f3, f4⟩ := off_state_frame TOIE3 a (a.on TOIE3 s).state
  refine ⟨f1, f2, ?_, ?_, ?_, ?_⟩
  · intro b hb
    rw [f3 b hb]
    rcases on_state_cases TOIE3 a s with he | ⟨-, -, g3, -⟩
    · rw [he]
    · exact g3 b hb
  · intro p hp
    rw [f4 p hp]
    rcases on_state_cases TOIE3 a s with he | ⟨-, -, -, g4⟩
    · rw [he]
    · exact g4 p hp
  · rintro rfl; rfl
  · intro hne
    cases a <;> cases hr : s.stateRelayOn <;> cases hc : s.stateCyclage <;>
      first
        | exact absurd rfl hne
        | simp [Actuator.on, Actuator.off, cyclage_on, chauffage_on, remplissage_on,
            regeneration_on, vidange_on, sechage_on, doseur_on, relayOn_on,
            relayOn_off, cyclage_off, chauffage_off, remplissage_off,
            regeneration_off, vidange_off, sechage_off, doseur_off,
            error_management, Outcome.state, digitalWrite, hr, hc]

/-- C12. Round trip `X_on(); X_off()`: in every state reached from
`init_variables` by a finite sequence of commands in which `X_on` returns
normally, `X_on` followed by `X_off` leaves the cache field and the pin of `X`
LOW and every other actuator cache field and pin at the value it had before
`X_on`. For the diverter `flagTimer3` is LOW afterwards; for the other
actuators it is as before. -/
theorem on_off_round_trip (TOIE3 : Nat) (s0 : State) (cmds : List Command) (a : Actuator)
    (h : (a.on TOIE3 (run TOIE3 cmds (init_variables s0))).code = none) :
    ∃ s1, a.on TOIE3 (run TOIE3 cmds (init_variables s0)) = .returned s1 ∧
      (a.off TOIE3 s1).cache a = LOW ∧ (a.off TOIE3 s1).pins a.pin = LOW ∧
      (∀ b, b ≠ a →
        (a.off TOIE3 s1).cache b = (run TOIE3 cmds (init_variables s0)).cache b) ∧
      (∀ p, p ≠ a.pin →
        (a.off TOIE3 s1).pins p = (run TOIE3 cmds (init_variables s0)).pins p) ∧
      (a = .diverter → (a.off TOIE3 s1).flagTimer3 = LOW) ∧
      (a ≠ .diverter →
        (a.off TOIE3 s1).flagTimer3 = (run TOIE3 cmds (init_variables s0)).flagTimer3) :=
  on_then_off_frame TOIE3 a (run TOIE3 cmds (init_variables s0)) h

/-- Witness for C12 (diverter lifecycle): with relay and wash pump on,
`diverter_on` returns; after `diverter_off` the diverter field and pin are LOW,
the wash pump is still HIGH and `flagTimer3` is LOW. -/
theorem on_off_round_trip_witness :
    (Actuator.diverter.on 0 (run 0 [.on .relayOn, .on .cyclage] (init_variables allLow))).code
      = none ∧
    ∃ s1, Actuator.diverter.on 0 (run 0 [.on .relayOn, .on .cyclage] (init_variables allLow))
        = .returned s1 ∧
      (Actuator.diverter.off 0 s1).stateDiverter = LOW ∧
      (Actuator.diverter.off 0 s1).pins comDiverterPin = LOW ∧
      (Actuator.diverter.off 0 s1).stateCyclage = HIGH ∧
      (Actuator.diverter.off 0 s1).flagTimer3 = LOW := by
  refine ⟨rfl, ?_⟩
  obtain ⟨s1, h1, c1, c2, c3, -, c5, -⟩ :=
    on_off_round_trip 0 allLow [.on .relayOn, .on .cyclage] .diverter rfl
  exact ⟨s1, h1, c1, c2, by simpa using c3 .cyclage (by decide), c5 rfl⟩

/-! ## Recovery registration -/

/-- C13, evaluated on the code. With a 2-byte pointer and a 24-byte `jmp_buf`
(the sizes of the ATmega2560), the constructor copies the first two bytes of
the caller's context only: the stored `_env` keeps its old content from byte 2
on and differs from the context. -/
theorem constructor_copies_pointer_bytes_only :
    Actuators.Actuators 2
        [1, 2, 3, 4, 5, 6, 7, 8, 9, 10, 11, 12, 13, 14, 15, 16, 17, 18, 19, 20, 21, 22, 23, 24]
        (List.replicate 24 0)
      = 1 :: 2 :: List.replicate 22 0 ∧
    Actuators.Actuators 2
        [1, 2, 3, 4, 5, 6, 7, 8, 9, 10, 11, 12, 13, 14, 15, 16, 17, 18, 19, 20, 21, 22, 23, 24]
        (List.replicate 24 0)
      ≠ [1, 2, 3, 4, 5, 6, 7, 8, 9, 10, 11, 12, 13, 14, 15, 16, 17, 18, 19, 20, 21, 22, 23, 24] := by
  decide

/-! ## Sensor conversions -/

/-- C14. Temperature conversion: for every ADC reading `raw`,
`mesure_temperature` returns `(raw*5/1024 - 2.5)/0.025 = 25*raw/128 - 100` in
exact rational arithmetic; the result is strictly increasing in `raw`, is 0 at
`raw = 512`, and at `raw = 614` lies within 0.1 of 20.0. -/
theorem mesure_temperature_conversion :
    (∀ raw : Int, mesure_temperature raw = ((raw : ℚ) * 5 / 1024 - 2.5) / 0.025 ∧
      mesure_temperature raw = 25 * (raw : ℚ) / 128 - 100) ∧
    (∀ a b : Int, a < b → mesure_temperature a < mesure_temperature b) ∧
    mesure_temperature 512 = 0 ∧
    |mesure_temperature 614 - 20| ≤ 0.1 := by
  have key : ∀ raw : Int, mesure_temperature raw = 25 * (raw : ℚ) / 128 - 100 := by
    intro raw
    simp only [mesure_temperature, tempScale]
    norm_num
    ring
  refine ⟨fun raw => ⟨?_, key raw⟩, ?_, ?_, ?_⟩
  · simp only [mesure_temperature, tempScale]; norm_num
  · intro a b hab
    rw [key, key]
    have : (a : ℚ) < (b : ℚ) := by exact_mod_cast hab
    linarith
  · rw [key]; norm_num
  · rw [key]; norm_num [abs_le]

/-- C15. Turbidity decision: for every ADC reading `raw`, the value returned
by `niveau_turbidite` does not depend on the object it is called on, is +1 or
-1, and is +1 exactly when `level > 500` with
`level = (raw*5/1024 - 3.0)/(-0.001) + 1500` in exact rational arithmetic; for
`raw = 410` it is +1. -/
theorem niveau_turbidite_decision (self : Sensors) (raw : Int) :
    (∀ other : Sensors, niveau_turbidite other raw = niveau_turbidite self raw) ∧
    (niveau_turbidite self raw = 1 ∨ niveau_turbidite self raw = -1) ∧
    (niveau_turbidite self raw = 1 ↔
      ((raw : ℚ) * 5 / 1024 - 3.0) / (-0.001) + 1500 > 500) ∧
    niveau_turbidite self 410 = 1 := by
  refine ⟨fun _ => rfl, ?_, ?_, ?_⟩
  · simp only [niveau_turbidite]; split_ifs <;> simp
  · simp only [niveau_turbidite, dirtyScale, dirtyLevel]
    norm_num
  · simp only [niveau_turbidite, dirtyScale, dirtyLevel]; norm_num

/-! ## Error management -/

/-- C19. Single escape point: `error_management code` jumps to the recovery
point with exactly `code` when `code` is 1, 2, 3, 4 or 5; for every other code,
the sentinel -1 in particular, it returns and leaves the state as it is. So a
delivered code is always in 1..5 and never -1. -/
theorem error_management_single_escape (code : Int) (s : State) :
    ((code = 1 ∨ code = 2 ∨ code = 3 ∨ code = 4 ∨ code = 5) →
      error_management code s = .escaped code s) ∧
    (¬ (code = 1 ∨ code = 2 ∨ code = 3 ∨ code = 4 ∨ code = 5) →
      error_management code s = .returned s) ∧
    error_management (-1) s = .returned s ∧
    (∀ c s', error_management code s = .escaped c s' →
      (c = 1 ∨ c = 2 ∨ c = 3 ∨ c = 4 ∨ c = 5) ∧ c ≠ -1 ∧ c = code ∧ s' = s) := by
  refine ⟨?_, ?_, ?_, ?_⟩
  · intro h; unfold error_management; split_ifs <;> first | rfl | omega
  · intro h; unfold error_management; split_ifs <;> first | rfl | omega
  · simp [error_management]
  · intro c s' h
    unfold error_management at h
    split_ifs at h <;> cases h <;> refine ⟨?_, ?_, rfl, rfl⟩ <;> omega

/-! ## Flow measurement: the sampling loop -/

theorem adjacentPairs_succ (n : Nat) : adjacentPairs (n + 1) = adjacentPairs n ++ [(n, n + 1)] := by
  simp [adjacentPairs, List.range_succ]

theorem calculate_flow_loop_succ (s : Nat → Int) (fuel : Nat) (st : FlowLoop) (h : st.i < 3) :
    calculate_flow_loop s (fuel + 1) st =
      calculate_flow_loop s fuel
        { calculate_flow_body s st with i := (calculate_flow_body s st).i + 1 } := by
  simp [calculate_flow_loop, numberTimes, h]

theorem ready_step_unstable (s : Nat → Int) (j : Nat) (st : FlowLoop)
    (h : st.Ready s j) (hu : GapTooLarge (s j) (s (j + 1))) :
    FlowLoop.Ready s (j + 1)
      { calculate_flow_body s st with i := (calculate_flow_body s st).i + 1 } := by
  obtain ⟨hi, hm, ho, hn, hc⟩ := h
  unfold GapTooLarge at hu
  simp [FlowLoop.Ready, calculate_flow_body, store, hi, hm, ho, hn, hc, hu, adjacentPairs_succ]

theorem calculate_flow_loop_exit (s : Nat → Int) (fuel : Nat) (st : FlowLoop) (h : st.i = 3) :
    calculate_flow_loop s (fuel + 1) st = some st := by
  simp [calculate_flow_loop, numberTimes, h]

theorem ready_step_stable (s : Nat → Int) (j : Nat) (st : FlowLoop)
    (h : st.Ready s j) (hu : ¬ GapTooLarge (s j) (s (j + 1))) (fuel : Nat) :
    ∃ r, calculate_flow_loop s (fuel + 3) st = some r ∧ r.Final s j := by
  obtain ⟨hi, hm, ho, hn, hc⟩ := h
  unfold GapTooLarge at hu
  have h1 : ({ calculate_flow_body s st with
      i := (calculate_flow_body s st).i + 1 } : FlowLoop).i = 2 := by
    simp [calculate_flow_body, store, hi, hm, ho, hn, hc, hu]
  rw [calculate_flow_loop_succ s _ st (by omega), calculate_flow_loop_succ s _ _ (by omega),
    calculate_flow_loop_exit s _ _ (by simp [calculate_flow_body, store, hi, hm, ho, hn, hc, hu])]
  refine ⟨_, rfl, ?_⟩
  simp [FlowLoop.Final, calculate_flow_body, store, hi, hm, ho, hn, hc, hu, adjacentPairs_succ]

theorem calculate_flow_loop_reaches (s : Nat → Int) (d : Nat) :
    ∀ (j : Nat) (st : FlowLoop), st.Ready s j →
      (∀ t, j ≤ t → t < j + d → GapTooLarge (s t) (s (t + 1))) →
      ¬ GapTooLarge (s (j + d)) (s (j + d + 1)) →
      ∀ extra, ∃ r, calculate_flow_loop s (d + 3 + extra) st = some r ∧ r.Final s (j + d) := by
  induction d with
  | zero =>
    intro j st h _ hs extra
    have := ready_step_stable s j st h hs extra
    simpa [Nat.add_comm] using this
  | succ d ih =>
    intro j st h hu hs extra
    have hstep := ready_step_unstable s j st h (hu j (le_refl j) (by omega))
    have := ih (j + 1) _ hstep (fun t h1 h2 => hu t (by omega) (by omega))
      (by simpa [Nat.add_assoc, Nat.add_comm 1 d] using hs) extra
    obtain ⟨r, hr, hf⟩ := this
    refine ⟨r, ?_, by simpa [Nat.add_assoc, Nat.add_comm 1 d] using hf⟩
    have e : d + 1 + 3 + extra = (d + 3 + extra) + 1 := by omega
    rw [e, calculate_flow_loop_succ s _ st (by rw [h.1]; omega)]
    exact hr

theorem calculate_flow_loop_starves (s : Nat → Int) (fuel : Nat) :
    ∀ (j : Nat) (st : FlowLoop), st.Ready s j →
      (∀ t, j ≤ t → t < j + fuel → GapTooLarge (s t) (s (t + 1))) →
      calculate_flow_loop s fuel st = none := by
  induction fuel with
  | zero => intro j st _ _; rfl
  | succ fuel ih =>
    intro j st h hu
    rw [calculate_flow_loop_succ s _ st (by rw [h.1]; omega)]
    exact ih (j + 1) _ (ready_step_unstable s j st h (hu j (le_refl j) (by omega)))
      (fun t h1 h2 => hu t (by omega) (by omega))

theorem calculate_flow_loop_mono (s : Nat → Int) (fuel : Nat) :
    ∀ (st r : FlowLoop) (extra : Nat), calculate_flow_loop s fuel st = some r →
      calculate_flow_loop s (fuel + extra) st = some r := by
  induction fuel with
  | zero => intro st r extra h; simp [calculate_flow_loop] at h
  | succ fuel ih =>
    intro st r extra h
    have e : fuel + 1 + extra = (fuel + extra) + 1 := by omega
    rw [e]
    by_cases hi : st.i < 3
    · rw [calculate_flow_loop_succ s _ st hi] at h ⊢
      exact ih _ _ _ h
    · simp only [calculate_flow_loop, numberTimes, hi, if_false] at h ⊢
      exact h

theorem entry_step_ready (s : Nat → Int) :
    FlowLoop.Ready s 0
      { calculate_flow_body s calculate_flow_entry with
        i := (calculate_flow_body s calculate_flow_entry).i + 1 } := by
  simp [FlowLoop.Ready, calculate_flow_body, calculate_flow_entry, store, adjacentPairs]

/-- Returning results of the first loop are exactly the final states at the
first position whose comparison does not ask for a discard. -/
theorem calculate_flow_loop_returns (s : Nat → Int) (fuel : Nat) (r : FlowLoop)
    (h : calculate_flow_loop s fuel calculate_flow_entry = some r) :
    ∃ k, ¬ GapTooLarge (s k) (s (k + 1)) ∧ (∀ t, t < k → GapTooLarge (s t) (s (t + 1))) ∧
      r.Final s k := by
  cases fuel with
  | zero => simp [calculate_flow_loop] at h
  | succ fuel =>
    rw [calculate_flow_loop_succ s _ _ (by simp [calculate_flow_entry])] at h
    have hex : ∃ t, ¬ GapTooLarge (s t) (s (t + 1)) := by
      by_contra hno
      push_neg at hno
      have := calculate_flow_loop_starves s fuel 0 _ (entry_step_ready s) (fun t _ _ => hno t)
      rw [this] at h
      cases h
    classical
    refine ⟨Nat.find hex, Nat.find_spec hex, fun t ht => ?_, ?_⟩
    · exact not_not.mp (Nat.find_min hex ht)
    · obtain ⟨r', hr', hf⟩ := calculate_flow_loop_reaches s (Nat.find hex) 0 _ (entry_step_ready s)
        (fun t _ ht => not_not.mp (Nat.find_min hex (by omega)))
        (by simpa using Nat.find_spec hex) 0
      have h1 := calculate_flow_loop_mono s _ _ _ (Nat.find hex + 3 + 0) h
      have h2 := calculate_flow_loop_mono s _ _ _ fuel hr'
      rw [Nat.add_comm] at h1
      rw [h1] at h2
      cases h2
      simpa using hf

theorem calculate_flow_loop_total (s : Nat → Int) (k : Nat)
    (hs : ¬ GapTooLarge (s k) (s (k + 1))) (hu : ∀ t, t < k → GapTooLarge (s t) (s (t + 1)))
    (extra : Nat) :
    ∃ r, calculate_flow_loop s (k + 4 + extra) calculate_flow_entry = some r ∧ r.Final s k := by
  obtain ⟨r, hr, hf⟩ := calculate_flow_loop_reaches s k 0 _ (entry_step_ready s)
    (fun t _ ht => hu t (by omega)) (by simpa using hs) extra
  refine ⟨r, ?_, by simpa using hf⟩
  have e : k + 4 + extra = (k + 3 + extra) + 1 := by omega
  rw [e, calculate_flow_loop_succ s _ _ (by simp [calculate_flow_entry])]
  exact hr

theorem wrap16_of_range (x : Int) (h1 : -32768 ≤ x) (h2 : x ≤ 32767) : wrap16 x = x := by
  unfold wrap16
  rw [Int.emod_eq_of_lt (by omega) (by omega)]
  omega

theorem abs16_wrap16_sub (a b : Int) (ha : 0 ≤ a ∧ a ≤ 32767) (hb : 0 ≤ b ∧ b ≤ 32767) :
    abs16 (wrap16 (a - b)) = |a - b| := by
  rw [wrap16_of_range (a - b) (by omega) (by omega)]
  unfold abs16
  split_ifs with h
  · exact (abs_of_pos h).symm
  · rw [wrap16_of_range (-(a - b)) (by omega) (by omega)]
    exact (abs_of_nonpos (by omega)).symm

theorem gapTooLarge_iff (s : Nat → Int) (hs : CountStream s) (k : Nat) :
    GapTooLarge (s k) (s (k + 1)) ↔ ¬ StablePair s k := by
  unfold GapTooLarge StablePair
  rw [abs16_wrap16_sub _ _ (hs k) (hs (k + 1)), not_le, gt_iff_lt, mul_comm]

theorem calculate_flow_eq_some (fuel : Nat) (s : Nat → Int) (r : FlowResult) :
    calculate_flow fuel s = some r ↔
      calculate_flow_loop s fuel calculate_flow_entry = some r.locals ∧
      r.flow = calculate_flow_scale (calculate_flow_sum r.locals.mesuresPulses) := by
  unfold calculate_flow
  cases h : calculate_flow_loop s fuel calculate_flow_entry with
  | none => simp
  | some st =>
    rcases r with ⟨f, l⟩
    simp only [Option.some.injEq, FlowResult.mk.injEq]
    constructor
    · rintro ⟨rfl, rfl⟩; exact ⟨rfl, rfl⟩
    · rintro ⟨rfl, rfl⟩; exact ⟨rfl, rfl⟩

/-- A call that returns has kept the counts at the first position `k` whose
comparison did not ask for a discard. -/
theorem calculate_flow_returns (s : Nat → Int) (fuel : Nat) (r : FlowResult)
    (h : calculate_flow fuel s = some r) :
    ∃ k, ¬ GapTooLarge (s k) (s (k + 1)) ∧ (∀ t, t < k → GapTooLarge (s t) (s (t + 1))) ∧
      r.locals.Final s k :=
  calculate_flow_loop_returns s fuel r.locals ((calculate_flow_eq_some fuel s r).mp h).1

/-- With `k` the first position whose comparison does not ask for a discard,
`k + 4` tests of the loop condition are enough for the call to return. -/
theorem calculate_flow_total (s : Nat → Int) (k : Nat)
    (hs : ¬ GapTooLarge (s k) (s (k + 1))) (hu : ∀ t, t < k → GapTooLarge (s t) (s (t + 1)))
    (fuel : Nat) (hf : k + 4 ≤ fuel) :
    ∃ r, calculate_flow fuel s = some r ∧ r.locals.Final s k ∧
      r.flow = calculate_flow_scale (calculate_flow_sum r.locals.mesuresPulses) := by
  obtain ⟨st, hst, hfin⟩ := calculate_flow_loop_total s k hs hu (fuel - (k + 4))
  have e : k + 4 + (fuel - (k + 4)) = fuel := by omega
  rw [e] at hst
  exact ⟨⟨calculate_flow_scale (calculate_flow_sum st.mesuresPulses), st⟩,
    (calculate_flow_eq_some fuel s _).mpr ⟨hst, rfl⟩, hfin, rfl⟩

/-- The position at which a call settles is determined by the stream. -/
theorem first_settled_unique (s : Nat → Int) (k k' : Nat)
    (hs : ¬ GapTooLarge (s k) (s (k + 1))) (hu : ∀ t, t < k → GapTooLarge (s t) (s (t + 1)))
    (hs' : ¬ GapTooLarge (s k') (s (k' + 1)))
    (hu' : ∀ t, t < k' → GapTooLarge (s t) (s (t + 1))) : k = k' := by
  rcases Nat.lt_trichotomy k k' with h | h | h
  · exact absurd (hu' k h) hs
  · exact h
  · exact absurd (hu k' h) hs'

theorem scenarioStream_count : CountStream scenarioStream := by
  intro n
  unfold scenarioStream
  split_ifs <;> norm_num

theorem scenarioStream_first : FirstStable scenarioStream 1 := by
  refine ⟨?_, ?_⟩
  · norm_num [StablePair, scenarioStream]
  · intro j hj
    have : j = 0 := by omega
    subst this
    norm_num [StablePair, scenarioStream]

/-! ## Flow measurement: the claims -/

theorem tenTenEleven_first : ¬ GapTooLarge (tenTenEleven 0) (tenTenEleven 1) := by
  norm_num [GapTooLarge, tenTenEleven, abs16, wrap16]

/-- The scenario stream settles at position 1. -/
theorem scenarioStream_run (fuel : Nat) (hf : 5 ≤ fuel) :
    ∃ r, calculate_flow fuel scenarioStream = some r ∧ r.locals.Final scenarioStream 1 ∧
      r.flow = calculate_flow_scale (calculate_flow_sum r.locals.mesuresPulses) := by
  refine calculate_flow_total scenarioStream 1 ?_ ?_ fuel hf
  · norm_num [GapTooLarge, scenarioStream, abs16, wrap16]
  · intro t ht
    have : t = 0 := by omega
    subst this
    norm_num [GapTooLarge, scenarioStream, abs16, wrap16]

theorem scenarioStream_retained :
    (calculate_flow 5 scenarioStream).map FlowResult.retained = some (200, 205, 210) := by
  obtain ⟨r, hr, ⟨-, h0, h1, h2, -⟩, -⟩ := scenarioStream_run 5 (le_refl _)
  rw [hr]
  simp [FlowResult.retained, h0, h1, h2, scenarioStream]

theorem firstStable_iff (s : Nat → Int) (hs : CountStream s) (k : Nat) :
    FirstStable s k ↔
      ¬ GapTooLarge (s k) (s (k + 1)) ∧ ∀ t, t < k → GapTooLarge (s t) (s (t + 1)) := by
  unfold FirstStable
  rw [gapTooLarge_iff s hs k, not_not]
  refine and_congr Iff.rfl (forall_congr' fun t => imp_congr Iff.rfl ?_)
  rw [gapTooLarge_iff s hs t]

/-- C17. Flow sample selection, for a stream `s` of pulse counts. Whenever
`calculate_flow` returns, the counts it has kept and sums are `s k`,
`s (k+1)`, `s (k+2)` with `k` the least position such that
`|s k - s (k+1)| ≤ 0.1 * s (k+1)`; the kept pair satisfies that inequality and
the third count carries no condition. Conversely, when such a `k` exists the
call returns (after `k + 4` tests of the loop condition) with these counts. -/
theorem calculate_flow_sample_selection (s : Nat → Int) (hs : CountStream s) :
    (∀ fuel r, calculate_flow fuel s = some r →
      ∃ k, FirstStable s k ∧ r.retained = (s k, s (k + 1), s (k + 2)) ∧
        ((|r.retained.1 - r.retained.2.1| : Int) : ℚ) ≤ 0.1 * (r.retained.2.1 : ℚ)) ∧
    (∀ k, FirstStable s k → ∀ fuel, k + 4 ≤ fuel →
      ∃ r, calculate_flow fuel s = some r ∧ r.retained = (s k, s (k + 1), s (k + 2))) := by
  refine ⟨fun fuel r h => ?_, fun k hk fuel hf => ?_⟩
  · obtain ⟨k, hst, hun, -, h0, h1, h2, -⟩ := calculate_flow_returns s fuel r h
    have hk : FirstStable s k := (firstStable_iff s hs k).mpr ⟨hst, hun⟩
    refine ⟨k, hk, ?_, ?_⟩
    · simp [FlowResult.retained, h0, h1, h2]
    · simpa [FlowResult.retained, h0, h1, StablePair] using hk.1
  · obtain ⟨hst, hun⟩ := (firstStable_iff s hs k).mp hk
    obtain ⟨r, hr, ⟨-, h0, h1, h2, -⟩, -⟩ := calculate_flow_total s k hst hun fuel hf
    exact ⟨r, hr, by simp [FlowResult.retained, h0, h1, h2]⟩

/-- Witness for C17 (spec scenario): on the stream 100, 200, 205, 210 the
retained counts are 200, 205, 210. -/
theorem calculate_flow_sample_selection_witness :
    CountStream scenarioStream ∧
    ∃ r, calculate_flow 5 scenarioStream = some r ∧ r.retained = (200, 205, 210) := by
  refine ⟨scenarioStream_count, ?_⟩
  obtain ⟨r, hr, hret⟩ :=
    (calculate_flow_sample_selection scenarioStream scenarioStream_count).2 1
      scenarioStream_first 5 (le_refl _)
  exact ⟨r, hr, by simpa [scenarioStream] using hret⟩

/-- C18. Flow termination and sample count, for a stream `s` of pulse counts.
`calculate_flow` returns (for some amount of fuel) exactly when some adjacent
pair satisfies `|s k - s (k+1)| ≤ 0.1 * s (k+1)`. With `k` the least such
position every returning call has taken exactly `k + 3` samples, and it does
return once the fuel allows `k + 4` tests of the loop condition. When the first
pair is stable the call takes exactly 3 samples. -/
theorem calculate_flow_termination (s : Nat → Int) (hs : CountStream s) :
    ((∃ fuel r, calculate_flow fuel s = some r) ↔ ∃ k, StablePair s k) ∧
    (∀ k, FirstStable s k →
      (∀ fuel, k + 4 ≤ fuel → ∃ r, calculate_flow fuel s = some r ∧ r.locals.samples = k + 3) ∧
      (∀ fuel r, calculate_flow fuel s = some r → r.locals.samples = k + 3)) ∧
    (StablePair s 0 → ∀ fuel r, calculate_flow fuel s = some r → r.locals.samples = 3) := by
  have hcount : ∀ k, FirstStable s k →
      (∀ fuel, k + 4 ≤ fuel → ∃ r, calculate_flow fuel s = some r ∧ r.locals.samples = k + 3) ∧
      (∀ fuel r, calculate_flow fuel s = some r → r.locals.samples = k + 3) := by
    intro k hk
    obtain ⟨hst, hun⟩ := (firstStable_iff s hs k).mp hk
    refine ⟨fun fuel hf => ?_, fun fuel r h => ?_⟩
    · obtain ⟨r, hr, hfin, -⟩ := calculate_flow_total s k hst hun fuel hf
      exact ⟨r, hr, hfin.2.2.2.2.2.2.2.1⟩
    · obtain ⟨k', hst', hun', hfin⟩ := calculate_flow_returns s fuel r h
      rw [first_settled_unique s k k' hst hun hst' hun']
      exact hfin.2.2.2.2.2.2.2.1
  refine ⟨⟨?_, ?_⟩, hcount, fun h0 => (hcount 0 ⟨h0, fun j hj => absurd hj (by omega)⟩).2⟩
  · rintro ⟨fuel, r, h⟩
    obtain ⟨k, hst, -, -⟩ := calculate_flow_returns s fuel r h
    exact ⟨k, by simpa [gapTooLarge_iff s hs k] using hst⟩
  · rintro hex
    classical
    have hk : FirstStable s (Nat.find hex) := ⟨Nat.find_spec hex, fun j hj => Nat.find_min hex hj⟩
    obtain ⟨r, hr, -⟩ := (hcount _ hk).1 (Nat.find hex + 4) (le_refl _)
    exact ⟨_, r, hr⟩

/-- Witness for C18: on the stream 100, 200, 205, 210 the first stable pair is
at position 1 and the call takes 4 samples. -/
theorem calculate_flow_termination_witness :
    CountStream scenarioStream ∧
    ∃ r, calculate_flow 5 scenarioStream = some r ∧ r.locals.samples = 4 := by
  refine ⟨scenarioStream_count, ?_⟩
  exact ((calculate_flow_termination scenarioStream scenarioStream_count).2.1 1
    scenarioStream_first).1 5 (le_refl _)

/-! ## Heater and power rail -/

/-- C21 fails as stated: `chauffage_on` checks the wash pump only and
`relayOn_off` has no guard, so after relay on, wash pump on, relay off the call
of `chauffage_on` returns normally and switches the heater on while the main
relay is LOW in the cache. -/
theorem heater_on_with_relay_off :
    (chauffage_on
      (run 0 [.on .relayOn, .on .cyclage, .off .relayOn] (init_variables allLow))).code = none ∧
    (run 0 [.on .relayOn, .on .cyclage, .off .relayOn] (init_variables allLow)).stateRelayOn
      = LOW ∧
    (chauffage_on
      (run 0 [.on .relayOn, .on .cyclage, .off .relayOn] (init_variables allLow))).state.stateChauffage
      = HIGH := by
  refine ⟨rfl, rfl, rfl⟩

/-- Every command allowed by `relayOffOnlyWhenPumpOff` keeps `PumpNeedsRelay`. -/
theorem pumpNeedsRelay_step (TOIE3 : Nat) (c : Command) (s : State)
    (hs : PumpNeedsRelay s) (hok : relayOffOnlyWhenPumpOff c s = true) :
    PumpNeedsRelay (c.exec TOIE3 s).state := by
  rcases c with _ | a | a
  · simp [Command.exec, Outcome.state, init_variables, PumpNeedsRelay]
  · cases a <;> cases hr : s.stateRelayOn <;> cases hc : s.stateCyclage <;>
      simp_all [Command.exec, Actuator.on, cyclage_on, chauffage_on, remplissage_on,
        regeneration_on, diverter_on, vidange_on, sechage_on, doseur_on, relayOn_on,
        error_management, Outcome.state, digitalWrite, PumpNeedsRelay]
  · cases a <;>
      simp_all [Command.exec, Actuator.off, relayOn_off, cyclage_off, chauffage_off,
        remplissage_off, regeneration_off, diverter_off, vidange_off, sechage_off,
        doseur_off, Outcome.state, digitalWrite, PumpNeedsRelay, relayOffOnlyWhenPumpOff]

/-- C21, amended. Heater activation implies power rail: in every state reached
from `init_variables` by a finite sequence of commands in which `relayOn_off`
is only issued while the wash pump is LOW in the cache, if `chauffage_on`
returns normally then the main relay is HIGH in the cache, before the call and
after it. -/
theorem heater_on_implies_relay (TOIE3 : Nat) (s0 : State) (cmds : List Command)
    (hdisc : runsUnder relayOffOnlyWhenPumpOff TOIE3 cmds (init_variables s0) = true)
    (hret : (chauffage_on (run TOIE3 cmds (init_variables s0))).code = none) :
    (run TOIE3 cmds (init_variables s0)).stateRelayOn = HIGH ∧
    (chauffage_on (run TOIE3 cmds (init_variables s0))).state.stateRelayOn = HIGH := by
  have hinv : PumpNeedsRelay (run TOIE3 cmds (init_variables s0)) :=
    run_preserves_under TOIE3 relayOffOnlyWhenPumpOff PumpNeedsRelay
      (pumpNeedsRelay_step TOIE3) cmds _ (by simp [init_variables, PumpNeedsRelay]) hdisc
  generalize run TOIE3 cmds (init_variables s0) = s at hinv hret
  cases hc : s.stateCyclage
  · simp [chauffage_on, error_management, Outcome.code, hc] at hret
  · have hr := hinv hc
    exact ⟨hr, by simp [chauffage_on, error_management, Outcome.state, digitalWrite, hc, hr]⟩

/-- Witness for C21: a run that switches the relay off only after the wash
pump, then switches both on again; `chauffage_on` returns and the relay is
HIGH. -/
theorem heater_on_implies_relay_witness :
    (runsUnder relayOffOnlyWhenPumpOff 0
        [.on .relayOn, .on .cyclage, .off .cyclage, .off .relayOn, .on .relayOn, .on .cyclage]
        (init_variables allLow) = true ∧
      (chauffage_on (run 0
        [.on .relayOn, .on .cyclage, .off .cyclage, .off .relayOn, .on .relayOn, .on .cyclage]
        (init_variables allLow))).code = none) ∧
    (run 0
        [.on .relayOn, .on .cyclage, .off .cyclage, .off .relayOn, .on .relayOn, .on .cyclage]
        (init_variables allLow)).stateRelayOn = HIGH :=
  ⟨⟨by decide, rfl⟩,
    (heater_on_implies_relay 0 allLow
      [.on .relayOn, .on .cyclage, .off .cyclage, .off .relayOn, .on .relayOn, .on .cyclage]
      (by decide) rfl).1⟩

/-! ## Timer mask -/

/-- C22, evaluated on the code. `diverter_on` sets bit `TOIE3` of `TIMSK3` and
keeps the other bits, but `diverter_off` executes `TIMSK3 &= (0 << TOIE3)`,
that is `TIMSK3 &= 0`: it clears the whole register. Starting with
`TIMSK3 = 0b00000110` and `TOIE3 = 0`, `diverter_on` gives `0b00000111` and
`diverter_off` then gives 0, so bits 1 and 2 are lost. -/
theorem diverter_off_clears_whole_mask :
    (run 0 [.on .relayOn, .on .cyclage, .on .diverter] maskBusy).TIMSK3 = 7 ∧
    (run 0 [.on .relayOn, .on .cyclage, .on .diverter, .off .diverter] maskBusy).TIMSK3 = 0 ∧
    (run 0 [.on .relayOn, .on .cyclage, .on .diverter] maskBusy).TIMSK3.testBit 1 = true ∧
    (run 0 [.on .relayOn, .on .cyclage, .on .diverter, .off .diverter] maskBusy).TIMSK3.testBit 1
      = false ∧
    (∀ (TOIE3 : Nat) (s : State), (diverter_off TOIE3 s).TIMSK3 = 0) ∧
    (∀ (TOIE3 : Nat) (s : State), TOIE3 < 8 → (diverter_on TOIE3 s).code = none →
      (diverter_on TOIE3 s).state.TIMSK3.testBit TOIE3 = true ∧
      ∀ i, i < 8 → i ≠ TOIE3 →
        (diverter_on TOIE3 s).state.TIMSK3.testBit i = s.TIMSK3.testBit i) := by
  refine ⟨by decide, by decide, by decide, by decide, fun T s => ?_, fun T s hT h => ?_⟩
  · simp [diverter_off, digitalWrite]
  · cases hr : s.stateRelayOn <;> cases hc : s.stateCyclage <;>
      simp [diverter_on, error_management, Outcome.code, hr, hc] at h
    refine ⟨?_, fun i hi hne => ?_⟩
    · simp [diverter_on, error_management, Outcome.state, digitalWrite, hr, hc,
        testBit_or_shift_mod, hT]
    · simp [diverter_on, error_management, Outcome.state, digitalWrite, hr, hc,
        testBit_or_shift_mod, hi, Ne.symm hne]

/-! ## Turbidity threshold -/

/-- C23. Turbidity threshold: the decision of `niveau_turbidite` is monotone in
the ADC reading with a single switch point: it returns +1 (dirty) for every
`raw ≤ 819` and -1 (clean) for every `raw ≥ 820`, so a larger reading never
gives a larger result. -/
theorem niveau_turbidite_threshold (self : Sensors) (raw : Int) :
    (raw ≤ 819 → niveau_turbidite self raw = 1) ∧
    (820 ≤ raw → niveau_turbidite self raw = -1) ∧
    (∀ raw' : Int, raw ≤ raw' → niveau_turbidite self raw' ≤ niveau_turbidite self raw) := by
  have key : ∀ x : Int, niveau_turbidite self x = if x ≤ 819 then 1 else -1 := by
    intro x
    simp only [niveau_turbidite, dirtyScale, dirtyLevel]
    by_cases hx : x ≤ 819
    · have : (x : ℚ) ≤ 819 := by exact_mod_cast hx
      rw [if_pos hx, if_pos]
      norm_num
      linarith
    · have : (820 : ℚ) ≤ (x : ℚ) := by exact_mod_cast (by omega : (820 : Int) ≤ x)
      rw [if_neg hx, if_neg]
      norm_num
      linarith
  refine ⟨fun h => by rw [key, if_pos h], fun h => by rw [key, if_neg (by omega)], ?_⟩
  intro raw' hle
  rw [key, key]
  split_ifs <;> omega

/-! ## Flow measurement: rounding of the returned product -/

/-- Rounding to an integer moves a value by at most one half. -/
theorem roundHalfEven_abs_sub_le (y : ℚ) : |(roundHalfEven y : ℚ) - y| ≤ 1 / 2 := by
  have h1 : (⌊y⌋ : ℚ) ≤ y := Int.floor_le y
  have h2 : y < (⌊y⌋ : ℚ) + 1 := Int.lt_floor_add_one y
  unfold roundHalfEven
  rw [abs_le]
  split_ifs <;> push_cast <;> constructor <;> linarith

/-- A value strictly within one half of an integer rounds to it. -/
theorem roundHalfEven_eq (y : ℚ) (n : Int) (h : |y - n| < 1 / 2) : roundHalfEven y = n := by
  rw [abs_lt] at h
  have hr := roundHalfEven_abs_sub_le y
  rw [abs_le] at hr
  have h1 : ((roundHalfEven y - n : Int) : ℚ) < 1 := by push_cast; linarith
  have h2 : (-1 : ℚ) < ((roundHalfEven y - n : Int) : ℚ) := by push_cast; linarith
  have h3 : roundHalfEven y - n < 1 := by exact_mod_cast h1
  have h4 : -1 < roundHalfEven y - n := by exact_mod_cast h2
  omega

/-- Relative error of one rounding to a `double`: at most `2⁻²⁴`. -/
theorem toDouble_abs_sub_le (x : ℚ) : |toDouble x - x| ≤ |x| / 2 ^ 24 := by
  by_cases hx : x = 0
  · subst hx
    simp [toDouble, roundHalfEven]
  have hpos : 0 < |x| := abs_pos.mpr hx
  have hlog : (2 : ℚ) ^ Int.log 2 |x| ≤ |x| := by
    have := Int.zpow_log_le_self (b := 2) (r := |x|) (by norm_num) hpos
    simpa using this
  unfold toDouble
  simp only [doubleSignificand]
  set e : Int := Int.log 2 |x| - ((24 : ℕ) - 1) with he
  have hu : (0 : ℚ) < 2 ^ e := by positivity
  have hround := roundHalfEven_abs_sub_le (x / 2 ^ e)
  have hfac : (roundHalfEven (x / 2 ^ e) : ℚ) * 2 ^ e - x
      = ((roundHalfEven (x / 2 ^ e) : ℚ) - x / 2 ^ e) * 2 ^ e := by
    field_simp
  rw [hfac, abs_mul, abs_of_pos hu]
  have hue : (2 : ℚ) ^ e = 2 ^ Int.log 2 |x| / 2 ^ 23 := by
    rw [he, zpow_sub₀ (by norm_num)]
    norm_num
  calc |(roundHalfEven (x / 2 ^ e) : ℚ) - x / 2 ^ e| * 2 ^ e
      ≤ 1 / 2 * 2 ^ e := by gcongr
    _ = 2 ^ Int.log 2 |x| / 2 ^ 24 := by rw [hue]; ring
    _ ≤ |x| / 2 ^ 24 := by gcongr

/-- Evaluation of `toDouble` at a positive value with binary exponent `e + 23`
whose scaled significand is strictly within one half of `n`. -/
theorem toDouble_eq (x : ℚ) (e n : Int) (hlo : (2 : ℚ) ^ (e + 23) ≤ x)
    (hhi : x < (2 : ℚ) ^ (e + 24)) (hn : |x / 2 ^ e - n| < 1 / 2) :
    toDouble x = n * 2 ^ e := by
  have hx : 0 < x := lt_of_lt_of_le (by positivity) hlo
  have hlog : Int.log 2 |x| = e + 23 := by
    rw [abs_of_pos hx]
    have h1 : e + 23 ≤ Int.log 2 x :=
      (Int.zpow_le_iff_le_log (b := 2) (by norm_num) hx).mp (by simpa using hlo)
    have h2 : Int.log 2 x < e + 24 :=
      (Int.lt_zpow_iff_log_lt (b := 2) (by norm_num) hx).mp (by simpa using hhi)
    omega
  unfold toDouble
  simp only [doubleSignificand, hlog]
  have he : e + 23 - ((24 : ℕ) - 1 : Int) = e := by norm_num
  rw [he, roundHalfEven_eq _ n hn]

/-- The `double` member `flowScale`: `8589935 · 2⁻³⁵`. -/
theorem toDouble_flowScale : toDouble flowScale = 8589935 / 34359738368 := by
  rw [toDouble_eq flowScale (-35) 8589935 (by norm_num [flowScale]) (by norm_num [flowScale])
    (by norm_num [flowScale, abs_lt])]
  norm_num

/-- Rounding error of the returned product for a quotient that an `int` sum
within the bound can give. -/
theorem product_abs_sub_le (q : Int) (h0 : 0 ≤ q) (h1 : q ≤ 10922) :
    |toDouble ((q : ℚ) * toDouble flowScale) - (q : ℚ) * 0.00025| ≤ 1 / 1000000 := by
  have hq0 : (0 : ℚ) ≤ (q : ℚ) := by exact_mod_cast h0
  have hq1 : (q : ℚ) ≤ 10922 := by exact_mod_cast h1
  have hr := toDouble_abs_sub_le ((q : ℚ) * toDouble flowScale)
  rw [toDouble_flowScale] at hr ⊢
  have hx : |(q : ℚ) * (8589935 / 34359738368)| = (q : ℚ) * (8589935 / 34359738368) :=
    abs_of_nonneg (mul_nonneg hq0 (by norm_num))
  rw [hx, abs_le] at hr
  rw [abs_le]
  obtain ⟨hr1, hr2⟩ := hr
  constructor
  · norm_num at hr1 ⊢; linarith
  · norm_num at hr2 ⊢; linarith

/-! ## Flow measurement: the value returned -/

/-- With non-negative retained counts whose sum is at most 16383, no `int`
operation of `calculate_flow` overflows: the value returned is the rounded
product of the integer quotient `2 * sum / 3` and the `double` `flowScale`. -/
theorem calculate_flow_of_bounded (s : Nat → Int) (fuel : Nat) (c0 c1 c2 : Int)
    (hret : (calculate_flow fuel s).map FlowResult.retained = some (c0, c1, c2))
    (h0 : 0 ≤ c0) (h1 : 0 ≤ c1) (h2 : 0 ≤ c2) (hsum : c0 + c1 + c2 ≤ 16383) :
    (calculate_flow fuel s).map FlowResult.flow =
      some (toDouble ((((2 * (c0 + c1 + c2)) / 3 : Int) : ℚ) * toDouble flowScale)) := by
  cases hcf : calculate_flow fuel s with
  | none => rw [hcf] at hret; simp at hret
  | some r =>
    rw [hcf] at hret
    simp only [Option.map_some', Option.some.injEq, FlowResult.retained, Prod.mk.injEq] at hret
    obtain ⟨e0, e1, e2⟩ := hret
    have hflow := ((calculate_flow_eq_some fuel s r).mp hcf).2
    have hsumv : calculate_flow_sum r.locals.mesuresPulses = c0 + c1 + c2 := by
      simp only [calculate_flow_sum, e0, e1, e2, zero_add]
      rw [wrap16_of_range c0 (by omega) (by omega),
        wrap16_of_range (c0 + c1) (by omega) (by omega),
        wrap16_of_range (c0 + c1 + c2) (by omega) (by omega)]
    simp only [Option.map_some', Option.some.injEq]
    rw [hflow, hsumv, calculate_flow_scale,
      wrap16_of_range (2 * (c0 + c1 + c2)) (by omega) (by omega),
      Int.tdiv_eq_ediv (by omega) (by norm_num)]

/-- The rounded product for the quotient 20. -/
theorem product_at_20 :
    toDouble (((20 : Int) : ℚ) * toDouble flowScale) = 10737419 / 2147483648 := by
  rw [toDouble_flowScale,
    toDouble_eq _ (-31) 10737419 (by norm_num) (by norm_num) (by norm_num [abs_lt])]
  norm_num

/-- The rounded product for the quotient 410. -/
theorem product_at_410 :
    toDouble (((410 : Int) : ℚ) * toDouble flowScale) = 13757318 / 134217728 := by
  rw [toDouble_flowScale,
    toDouble_eq _ (-27) 13757318 (by norm_num) (by norm_num) (by norm_num [abs_lt])]
  norm_num

/-- On the stream 10, 10, 11, ... the retained counts are 10, 10, 11. -/
theorem tenTenEleven_retained :
    (calculate_flow 4 tenTenEleven).map FlowResult.retained = some (10, 10, 11) := by
  obtain ⟨r, hr, ⟨-, h0, h1, h2, -⟩, -⟩ :=
    calculate_flow_total tenTenEleven 0 tenTenEleven_first (fun t ht => absurd ht (by omega)) 4
      (le_refl _)
  rw [hr]
  simp [FlowResult.retained, h0, h1, h2, tenTenEleven]

/-- On the stream 10, 10, 11, ... the call returns the rounded product for 20. -/
theorem tenTenEleven_flow :
    (calculate_flow 4 tenTenEleven).map FlowResult.flow = some (10737419 / 2147483648) := by
  rw [calculate_flow_of_bounded tenTenEleven 4 10 10 11 tenTenEleven_retained
    (by norm_num) (by norm_num) (by norm_num) (by norm_num)]
  have : ((2 * (10 + 10 + 11) : Int)) / 3 = 20 := by norm_num
  rw [this, product_at_20]

/-- On the scenario stream the call returns the rounded product for 410. -/
theorem scenarioStream_flow :
    (calculate_flow 5 scenarioStream).map FlowResult.flow = some (13757318 / 134217728) := by
  rw [calculate_flow_of_bounded scenarioStream 5 200 205 210 scenarioStream_retained
    (by norm_num) (by norm_num) (by norm_num) (by norm_num)]
  have : ((2 * (200 + 205 + 210) : Int)) / 3 = 410 := by norm_num
  rw [this, product_at_410]

/-- On the stream 6000, 6000, ... `2 * sum` wraps and the quotient is negative. -/
theorem sixThousand_flow :
    (calculate_flow 4 sixThousand).map FlowResult.flow =
      some (toDouble (((-9845 : Int) : ℚ) * toDouble flowScale)) := by
  obtain ⟨r, hr, ⟨-, h0, h1, h2, -⟩, hflow⟩ :=
    calculate_flow_total sixThousand 0 (by norm_num [GapTooLarge, sixThousand, abs16, wrap16])
      (fun t ht => absurd ht (by omega)) 4 (le_refl _)
  rw [hr]
  simp only [Option.map_some', Option.some.injEq, hflow, calculate_flow_sum,
    calculate_flow_scale, h0, h1, h2, sixThousand]
  have : Int.tdiv (wrap16 (2 * wrap16 (wrap16 (wrap16 (0 + 6000) + 6000) + 6000))) 3 = -9845 := by
    decide
  rw [this]

/-- The value returned on the stream 6000, 6000, ... is negative. -/
theorem sixThousand_flow_neg : toDouble (((-9845 : Int) : ℚ) * toDouble flowScale) < 0 := by
  have hr := toDouble_abs_sub_le (((-9845 : Int) : ℚ) * toDouble flowScale)
  rw [toDouble_flowScale] at hr ⊢
  rw [abs_le] at hr
  have hx : |((-9845 : Int) : ℚ) * (8589935 / 34359738368)| = 9845 * (8589935 / 34359738368) := by
    rw [abs_of_neg (by norm_num)]; norm_num
  rw [hx] at hr
  have := hr.2
  norm_num at this ⊢
  linarith

/-- C16 fails as stated, in three ways. (1) `2 * sum / 3` is an `int`
division: with the retained counts 10, 10, 11 the quotient is 20, not 62/3,
and the call returns `10737419 · 2⁻³¹`. (2) The product with `flowScale` is a
rounded `double` product: with 200, 205, 210 the call returns
`13757318 · 2⁻²⁷ = 0.10250000656...`, not 0.1025. (3) Beyond a sum of 16383,
`2 * sum` does not fit the `int`: with 6000, 6000, 6000 the quotient is -9845
and the value returned is negative. -/
theorem calculate_flow_truncates :
    ((calculate_flow 4 tenTenEleven).map FlowResult.retained = some (10, 10, 11) ∧
      (calculate_flow 4 tenTenEleven).map FlowResult.flow = some (10737419 / 2147483648) ∧
      (10737419 / 2147483648 : ℚ) ≠ (2 * (10 + 10 + 11) / 3) * 0.00025) ∧
    ((calculate_flow 5 scenarioStream).map FlowResult.retained = some (200, 205, 210) ∧
      (calculate_flow 5 scenarioStream).map FlowResult.flow = some (13757318 / 134217728) ∧
      (13757318 / 134217728 : ℚ) ≠ 0.1025) ∧
    ((calculate_flow 4 sixThousand).map FlowResult.flow =
        some (toDouble (((-9845 : Int) : ℚ) * toDouble flowScale)) ∧
      toDouble (((-9845 : Int) : ℚ) * toDouble flowScale) < 0 ∧
      (0 : ℚ) < (2 * (6000 + 6000 + 6000) / 3) * 0.00025) :=
  ⟨⟨tenTenEleven_retained, tenTenEleven_flow, by norm_num⟩,
    ⟨scenarioStream_retained, scenarioStream_flow, by norm_num⟩,
    ⟨sixThousand_flow, sixThousand_flow_neg, by norm_num⟩⟩

/-- C16, amended. Flow formula: when `calculate_flow` returns with retained
counts `c0, c1, c2` that are non-negative and sum to at most 16383 (so that
`2 * sum` fits an `int`), it returns the `double` product of the integer
quotient `q = 2*(c0+c1+c2) / 3` (the division by 3 being the integer division
of C) with the `double` constant `flowScale`. That value is within `10⁻⁶` of
`q * 0.00025`, hence within `10⁻⁶` of the exact `(2*(c0+c1+c2)/3) * 0.00025`
whenever 3 divides the sum. -/
theorem calculate_flow_formula (s : Nat → Int) (fuel : Nat) (c0 c1 c2 : Int)
    (hret : (calculate_flow fuel s).map FlowResult.retained = some (c0, c1, c2))
    (h0 : 0 ≤ c0) (h1 : 0 ≤ c1) (h2 : 0 ≤ c2) (hsum : c0 + c1 + c2 ≤ 16383) :
    ∃ f : ℚ, (calculate_flow fuel s).map FlowResult.flow = some f ∧
      f = toDouble ((((2 * (c0 + c1 + c2)) / 3 : Int) : ℚ) * toDouble flowScale) ∧
      |f - (((2 * (c0 + c1 + c2)) / 3 : Int) : ℚ) * 0.00025| ≤ 1 / 1000000 ∧
      (3 ∣ c0 + c1 + c2 →
        |f - (2 * ((c0 + c1 + c2 : Int) : ℚ) / 3) * 0.00025| ≤ 1 / 1000000) := by
  refine ⟨_, calculate_flow_of_bounded s fuel c0 c1 c2 hret h0 h1 h2 hsum, rfl, ?_, ?_⟩
  · exact product_abs_sub_le _ (by omega) (by omega)
  · rintro ⟨k, hk⟩
    have hb := product_abs_sub_le ((2 * (c0 + c1 + c2)) / 3) (by omega) (by omega)
    have hq : (2 * (c0 + c1 + c2)) / 3 = 2 * k := by omega
    rw [hq] at hb ⊢
    have : (2 * ((c0 + c1 + c2 : Int) : ℚ) / 3) = ((2 * k : Int) : ℚ) := by
      rw [hk]; push_cast; ring
    rw [this]
    exact hb

/-- Witness for C16 (spec scenario): with the retained counts 200, 205, 210
the call returns `13757318 · 2⁻²⁷`, which is 0.1025 to within `10⁻⁶`. -/
theorem calculate_flow_formula_witness :
    ((calculate_flow 5 scenarioStream).map FlowResult.retained = some (200, 205, 210) ∧
      (0 : Int) ≤ 200 ∧ (0 : Int) ≤ 205 ∧ (0 : Int) ≤ 210 ∧ (200 : Int) + 205 + 210 ≤ 16383) ∧
    ∃ f : ℚ, (calculate_flow 5 scenarioStream).map FlowResult.flow = some f ∧
      f = 13757318 / 134217728 ∧ |f - 0.1025| ≤ 1 / 1000000 := by
  refine ⟨⟨scenarioStream_retained, by norm_num, by norm_num, by norm_num, by norm_num⟩, ?_⟩
  obtain ⟨f, hf, hval, hq, -⟩ :=
    calculate_flow_formula scenarioStream 5 200 205 210 scenarioStream_retained
      (by norm_num) (by norm_num) (by norm_num) (by norm_num)
  have hq410 : ((2 * (200 + 205 + 210) : Int)) / 3 = 410 := by norm_num
  rw [hq410] at hval hq
  refine ⟨f, hf, by rw [hval, product_at_410], ?_⟩
  have : (((410 : Int) : ℚ)) * 0.00025 = 0.1025 := by norm_num
  rw [this] at hq
  exact hq

/-! ## Flow arithmetic bound -/

/-- The floor of `2n/3` is the integer quotient. -/
theorem floor_two_thirds (n : Int) : ⌊(2 * (n : ℚ)) / 3⌋ = (2 * n) / 3 := by
  have := Rat.floor_intCast_div_natCast (2 * n) 3
  simpa using this

/-- Rounding keeps a non-negative value non-negative. -/
theorem toDouble_nonneg (x : ℚ) (hx : 0 ≤ x) : 0 ≤ toDouble x := by
  have h := toDouble_abs_sub_le x
  rw [abs_of_nonneg hx, abs_le] at h
  have h1 := h.1
  have : x / 2 ^ 24 ≤ x := by
    rw [div_le_iff₀ (by positivity)]
    nlinarith
  linarith

/-- C24 fails as stated: the product with `flowScale` is rounded. With the
retained counts 200, 205, 210 (sum 615) the call returns `13757318 · 2⁻²⁷`,
which is not `floor(2*615/3) * 0.00025` and is larger, not smaller, than the
exact value `(2*615/3) * 0.00025 = 0.1025`. -/
theorem calculate_flow_exceeds_exact :
    (calculate_flow 5 scenarioStream).map FlowResult.retained = some (200, 205, 210) ∧
    (calculate_flow 5 scenarioStream).map FlowResult.flow = some (13757318 / 134217728) ∧
    (13757318 / 134217728 : ℚ) ≠
      (⌊(2 * (((200 : Int) + 205 + 210 : Int) : ℚ)) / 3⌋ : ℚ) * 0.00025 ∧
    (2 * (((200 : Int) + 205 + 210 : Int) : ℚ) / 3) * 0.00025 < (13757318 / 134217728 : ℚ) := by
  refine ⟨scenarioStream_retained, scenarioStream_flow, ?_, by norm_num⟩
  rw [floor_two_thirds]
  norm_num

/-- Linear consequences of the rounding bound, for a value `f` within `10⁻⁶` of
`Q * 0.00025` where `Q ≤ E ≤ Q + 2/3`. -/
theorem bound_arith (f Q E : ℚ) (hb : |f - Q * 0.00025| ≤ 1 / 1000000)
    (h1 : Q ≤ E) (h2 : E ≤ Q + 2 / 3) :
    E * 0.00025 - f < 0.00025 ∧ f - E * 0.00025 ≤ 1 / 1000000 := by
  rw [abs_le] at hb
  obtain ⟨hb1, hb2⟩ := hb
  constructor
  · norm_num at hb1 ⊢
    linarith
  · norm_num at hb2 ⊢
    linarith

/-- Two values within `10⁻⁶` of `Q * 0.00025` and `Q' * 0.00025` are ordered as
the integers `Q < Q'`. -/
theorem order_arith (f f' Q Q' : ℚ) (hb : |f - Q * 0.00025| ≤ 1 / 1000000)
    (hb' : |f' - Q' * 0.00025| ≤ 1 / 1000000) (h : Q + 1 ≤ Q') : f ≤ f' := by
  rw [abs_le] at hb hb'
  have h1 := hb.2
  have h2 := hb'.1
  norm_num at h1 h2
  linarith

/-- C24, amended. Flow arithmetic bound: when `calculate_flow` returns with
retained counts `c0, c1, c2 ≥ 0` such that `c0 + c1 + c2 ≤ 16383`, the value
returned is the `double` product of `floor(2*(c0+c1+c2)/3)` with the `double`
constant `flowScale`. It is within `10⁻⁶` of `floor(2*(c0+c1+c2)/3) * 0.00025`,
it is non-negative, it is below the exact value `(2*(c0+c1+c2)/3) * 0.00025` by
less than 0.00025 and above it by at most `10⁻⁶`, and a call whose retained
counts are at least as large in each position (within the same bound) returns
at least as much. -/
theorem calculate_flow_bound (s : Nat → Int) (fuel : Nat) (c0 c1 c2 : Int)
    (hret : (calculate_flow fuel s).map FlowResult.retained = some (c0, c1, c2))
    (h0 : 0 ≤ c0) (h1 : 0 ≤ c1) (h2 : 0 ≤ c2) (hsum : c0 + c1 + c2 ≤ 16383) :
    ∃ f : ℚ, (calculate_flow fuel s).map FlowResult.flow = some f ∧
      f = toDouble ((⌊(2 * ((c0 + c1 + c2 : Int) : ℚ)) / 3⌋ : ℚ) * toDouble flowScale) ∧
      |f - (⌊(2 * ((c0 + c1 + c2 : Int) : ℚ)) / 3⌋ : ℚ) * 0.00025| ≤ 1 / 1000000 ∧
      0 ≤ f ∧
      (2 * ((c0 + c1 + c2 : Int) : ℚ) / 3) * 0.00025 - f < 0.00025 ∧
      f - (2 * ((c0 + c1 + c2 : Int) : ℚ) / 3) * 0.00025 ≤ 1 / 1000000 ∧
      (∀ (s' : Nat → Int) (fuel' : Nat) (d0 d1 d2 : Int),
        (calculate_flow fuel' s').map FlowResult.retained = some (d0, d1, d2) →
        c0 ≤ d0 → c1 ≤ d1 → c2 ≤ d2 → d0 + d1 + d2 ≤ 16383 →
        ∃ f' : ℚ, (calculate_flow fuel' s').map FlowResult.flow = some f' ∧ f ≤ f') := by
  have hq0 : 0 ≤ (2 * (c0 + c1 + c2)) / 3 := by omega
  have hq1 : (2 * (c0 + c1 + c2)) / 3 ≤ 10922 := by omega
  have hb := product_abs_sub_le _ hq0 hq1
  have hqq : (0 : ℚ) ≤ ((((2 * (c0 + c1 + c2)) / 3 : Int)) : ℚ) := by exact_mod_cast hq0
  have hfl1 : ((((2 * (c0 + c1 + c2)) / 3 : Int)) : ℚ) ≤ 2 * ((c0 + c1 + c2 : Int) : ℚ) / 3 := by
    have : 3 * ((2 * (c0 + c1 + c2)) / 3) ≤ 2 * (c0 + c1 + c2) := by omega
    have : (3 : ℚ) * ((((2 * (c0 + c1 + c2)) / 3 : Int)) : ℚ) ≤ 2 * ((c0 + c1 + c2 : Int) : ℚ) := by
      exact_mod_cast this
    linarith
  have hfl2 : 2 * ((c0 + c1 + c2 : Int) : ℚ) / 3
      ≤ ((((2 * (c0 + c1 + c2)) / 3 : Int)) : ℚ) + 2 / 3 := by
    have : 2 * (c0 + c1 + c2) ≤ 3 * ((2 * (c0 + c1 + c2)) / 3) + 2 := by omega
    have : 2 * ((c0 + c1 + c2 : Int) : ℚ) ≤ (3 : ℚ) * ((((2 * (c0 + c1 + c2)) / 3 : Int)) : ℚ) + 2 := by
      exact_mod_cast this
    linarith
  have harith := bound_arith _ _ _ hb hfl1 hfl2
  refine ⟨_, calculate_flow_of_bounded s fuel c0 c1 c2 hret h0 h1 h2 hsum, ?_, ?_, ?_,
    harith.1, harith.2, ?_⟩
  · rw [floor_two_thirds]
  · rw [floor_two_thirds]; exact hb
  · refine toDouble_nonneg _ (mul_nonneg hqq ?_)
    rw [toDouble_flowScale]; norm_num
  · intro s' fuel' d0 d1 d2 hret' l0 l1 l2 hsum'
    refine ⟨_, calculate_flow_of_bounded s' fuel' d0 d1 d2 hret' (by omega) (by omega)
      (by omega) hsum', ?_⟩
    have hle : (2 * (c0 + c1 + c2)) / 3 ≤ (2 * (d0 + d1 + d2)) / 3 := by omega
    rcases eq_or_lt_of_le hle with heq | hlt
    · rw [heq]
    · have hb' := product_abs_sub_le ((2 * (d0 + d1 + d2)) / 3) (by omega) (by omega)
      have hstep : (((((2 * (c0 + c1 + c2)) / 3 : Int)) : ℚ)) + 1
          ≤ ((((2 * (d0 + d1 + d2)) / 3 : Int)) : ℚ) := by
        exact_mod_cast (by omega : (2 * (c0 + c1 + c2)) / 3 + 1 ≤ (2 * (d0 + d1 + d2)) / 3)
      exact order_arith _ _ _ _ hb hb' hstep

/-- Witness for C24: with the retained counts 10, 10, 11 the call returns
`10737419 · 2⁻³¹`, within `10⁻⁶` of `20 * 0.00025` and below the exact
`(62/3) * 0.00025` by less than 0.00025. -/
theorem calculate_flow_bound_witness :
    ((calculate_flow 4 tenTenEleven).map FlowResult.retained = some (10, 10, 11) ∧
      (0 : Int) ≤ 10 ∧ (0 : Int) ≤ 10 ∧ (0 : Int) ≤ 11 ∧ (10 : Int) + 10 + 11 ≤ 16383) ∧
    ∃ f : ℚ, (calculate_flow 4 tenTenEleven).map FlowResult.flow = some f ∧
      f = 10737419 / 2147483648 ∧ |f - 20 * 0.00025| ≤ 1 / 1000000 ∧ 0 ≤ f ∧
      (2 * (31 : ℚ) / 3) * 0.00025 - f < 0.00025 := by
  refine ⟨⟨tenTenEleven_retained, by norm_num, by norm_num, by norm_num, by norm_num⟩, ?_⟩
  obtain ⟨f, hf, hval, herr, hnn, hlt, -, -⟩ :=
    calculate_flow_bound tenTenEleven 4 10 10 11 tenTenEleven_retained
      (by norm_num) (by norm_num) (by norm_num) (by norm_num)
  have hfloor : ⌊(2 * (((10 : Int) + 10 + 11 : Int) : ℚ)) / 3⌋ = 20 := by
    rw [floor_two_thirds]; norm_num
  rw [hfloor] at hval herr
  have e31 : (((10 : Int) + 10 + 11 : Int) : ℚ) = 31 := by norm_num
  rw [e31] at hlt
  refine ⟨f, hf, ?_, ?_, hnn, hlt⟩
  · rw [hval]; exact product_at_20
  · have e20 : ((20 : Int) : ℚ) = 20 := by norm_num
    rw [e20] at herr
    exact herr

/-! ## Flow measurement: number of stability checks -/

/-- C20 fails as stated: on the stream 100, 200, 205, 210 the stability
comparison is evaluated twice during one call, first on the samples at
positions 0 and 1 (100 and 200, found too different), then on those at
positions 1 and 2 (200 and 205). -/
theorem calculate_flow_checks_twice :
    (calculate_flow 5 scenarioStream).map (fun r => r.locals.checked) = some [(0, 1), (1, 2)] ∧
    (calculate_flow 5 scenarioStream).map (fun r => r.locals.checked.length) = some 2 := by
  obtain ⟨r, hr, hfin, -⟩ := scenarioStream_run 5 (le_refl _)
  obtain ⟨-, -, -, -, -, -, -, -, hc⟩ := hfin
  rw [hr]
  simp [hc, adjacentPairs, List.range_succ]

/-- C20, amended. Stability checks per call: when `calculate_flow` returns,
with `k = origin 0` the stream position of its first retained count, the
stability comparison has been evaluated once on each of the adjacent pairs of
positions `(0,1), ..., (k,k+1)` and on nothing else: `k + 1` times in all, two
fewer than the `k + 3` samples taken. Every evaluation but the last found its
pair too different; the last one is on the first and second retained counts
and did not. The comparison is evaluated exactly once if and only if the first
two samples already pass it. -/
theorem calculate_flow_check_count (s : Nat → Int) (fuel : Nat) (r : FlowResult)
    (h : calculate_flow fuel s = some r) :
    r.locals.checked = adjacentPairs (r.locals.origin 0 + 1) ∧
    r.locals.checked.length = r.locals.origin 0 + 1 ∧
    r.locals.samples = r.locals.origin 0 + 3 ∧
    r.locals.origin 1 = r.locals.origin 0 + 1 ∧
    r.retained.1 = s (r.locals.origin 0) ∧ r.retained.2.1 = s (r.locals.origin 1) ∧
    r.locals.checked.getLast? = some (r.locals.origin 0, r.locals.origin 1) ∧
    (∀ t, t < r.locals.origin 0 → GapTooLarge (s t) (s (t + 1))) ∧
    ¬ GapTooLarge (s (r.locals.origin 0)) (s (r.locals.origin 1)) ∧
    (r.locals.checked.length = 1 ↔ ¬ GapTooLarge (s 0) (s 1)) := by
  obtain ⟨k, hst, hun, -, h0, h1, -, o0, o1, -, hn, hc⟩ := calculate_flow_returns s fuel r h
  rw [o0, o1, hc]
  refine ⟨rfl, by simp [adjacentPairs], hn, rfl, ?_, ?_, ?_, hun, hst, ?_⟩
  · simp [FlowResult.retained, h0]
  · simp [FlowResult.retained, h1]
  · simp [adjacentPairs_succ]
  · simp only [adjacentPairs, List.length_map, List.length_range]
    constructor
    · intro hk
      have : k = 0 := by omega
      subst this
      exact hst
    · intro h01
      have : k = 0 := by
        by_contra hne
        exact h01 (hun 0 (by omega))
      omega

/-- Witness for C20: on the stream 100, 200, 205, 210 the call takes 4 samples
and evaluates the comparison on the pairs (0,1) and (1,2); the retained pair
is 200, 205. -/
theorem calculate_flow_check_count_witness :
    ∃ r, calculate_flow 5 scenarioStream = some r ∧
      r.locals.checked = [(0, 1), (1, 2)] ∧ r.locals.checked.length = 2 ∧
      r.locals.samples = 4 ∧ r.retained.1 = 200 ∧ r.retained.2.1 = 205 := by
  obtain ⟨r, hr, hfin, -⟩ := scenarioStream_run 5 (le_refl _)
  obtain ⟨hc, hl, hn, -, e0, e1, -⟩ := calculate_flow_check_count scenarioStream 5 r hr
  obtain ⟨-, -, -, -, o0, o1, -⟩ := hfin
  rw [o0] at hc hl hn e0
  rw [o1] at e1
  refine ⟨r, hr, ?_, hl, hn, ?_, ?_⟩
  · rw [hc]; simp [adjacentPairs, List.range_succ]
  · rw [e0]; simp [scenarioStream]
  · rw [e1]; simp [scenarioStream]

end Dishwasher
